import Mathlib

/-!
# AutowareV2X, CPM application

Shallow embedding of `src/src/cpm_application.cpp` (class `v2x::CpmApplication`).

* A C++ `double` is a value of an ordered field `R` with exact arithmetic; the
  statements about real headings and angles take `R = ℝ`, and the same
  definitions run on `ℚ`.
* `int` and `long` values are `Int`. The only counter of the file, the object
  index of `updateObjectsStack`, counts the objects of one perception batch.
* `math.h` (`M_PI`, `cos`, `sin`) is the record `Libm`; the libraries that the
  file calls and that are not part of it (tf2, GeographicLib, vanetza) are the
  record `Env`.
* A null optional pointer that is dereferenced is the fault `nullDeref`; an
  exception that leaves `send` is reported next to the state it leaves behind.
-/

namespace v2x

variable {R : Type} [LinearOrderedField R] [FloorRing R]

/-! ## Numeric primitives of the C library -/

/-- Value of `std::lround`: the nearest integer, halfway cases away from zero. -/
def lround (x : R) : Int :=
  if 0 ≤ x then ⌊x + 1 / 2⌋ else ⌈x - 1 / 2⌉

/-- Value of the cast `(int) x` of a double: truncation toward zero. -/
def toInt (x : R) : Int :=
  if 0 ≤ x then ⌊x⌋ else ⌈x⌉

/-- Value of `std::fmod x y`: `x - n * y` with `n` the quotient `x / y` truncated
toward zero, so the result has the sign of `x`. -/
def fmod (x y : R) : R :=
  x - (toInt (x / y) : R) * y

/-- The part of `math.h` the file uses. -/
structure Libm (R : Type) where
  /-- The constant `M_PI`. -/
  M_PI : R
  /-- The function `cos`. -/
  cos : R → R
  /-- The function `sin`. -/
  sin : R → R

/-! ## Data model -/

/-- A `geometry_msgs` vector or point. -/
structure Vector3 (R : Type) where
  x : R
  y : R
  z : R

/-- A `geometry_msgs` / tf2 quaternion. -/
structure Quaternion (R : Type) where
  x : R
  y : R
  z : R
  w : R

/-- Roll, pitch and yaw as produced by `tf2::Matrix3x3::getRPY`. -/
structure RPY (R : Type) where
  roll : R
  pitch : R
  yaw : R

/-- The `builtin_interfaces` time stamp of a message header. -/
structure Time where
  sec : Int
  nanosec : Nat
deriving DecidableEq, Repr

/-- One entry of `DynamicObjectArray::objects`: the fields that
`updateObjectsStack` reads (`state.pose_covariance.pose` and
`shape.dimensions`). -/
structure DynamicObject (R : Type) where
  position : Vector3 R
  orientation : Quaternion R
  dimensions : Vector3 R

/-- The perception batch `autoware_perception_msgs::msg::DynamicObjectArray`. -/
structure DynamicObjectArray (R : Type) where
  stamp : Time
  objects : List (DynamicObject R)

/-- The record `CpmApplication::Object`, with the fields the file touches. -/
structure Object (R : Type) where
  objectID : Int
  timestamp : Time
  position_x : R
  position_y : R
  position_z : R
  orientation_x : R
  orientation_y : R
  orientation_z : R
  orientation_w : R
  shape_x : Int
  shape_y : Int
  shape_z : Int
  xDistance : Int
  yDistance : Int
  xSpeed : Int
  ySpeed : Int
  yawAngle : Int
  timeOfMeasurement : Int

/-! ### Wire message (the ASN.1 structure `vanetza::asn1::Cpm`) -/

/-- The ITS PDU header. -/
structure ItsPduHeader where
  protocolVersion : Int
  messageID : Int
  stationID : Int
deriving DecidableEq, Repr

/-- The reference position of the management container. -/
structure ReferencePosition where
  latitude : Int
  longitude : Int
  semiMajorConfidence : Int
  semiMinorConfidence : Int
deriving DecidableEq, Repr

/-- The management container. -/
structure CpmManagementContainer where
  stationType : Int
  referencePosition : ReferencePosition
deriving DecidableEq, Repr

/-- The heading of the originating vehicle container. -/
structure Heading where
  headingValue : Int
  headingConfidence : Int
deriving DecidableEq, Repr

/-- The speed of the originating vehicle container. -/
structure Speed where
  speedValue : Int
  speedConfidence : Int
deriving DecidableEq, Repr

/-- The originating vehicle container. -/
structure OriginatingVehicleContainer where
  heading : Heading
  speed : Speed
deriving DecidableEq, Repr

/-- The tag `present` of the station data container. -/
inductive StationDataContainer_PR where
  | NOTHING
  | originatingVehicleContainer
  | originatingRSUContainer
deriving DecidableEq, Repr

/-- The station data container: the tag and the member
`choice.originatingVehicleContainer` that the file reads and writes. -/
structure StationDataContainer where
  present : StationDataContainer_PR
  originatingVehicleContainer : OriginatingVehicleContainer
deriving DecidableEq, Repr

/-- A wire field made of a value and its confidence (`ObjectDistance`,
`SpeedExtended`, `ObjectDimension`, `CartesianAngle`). -/
structure Measured where
  value : Int
  confidence : Int
deriving DecidableEq, Repr

/-- One entry of the perceived object container. The last four fields are
optional on the wire (pointers in the C structure). -/
structure PerceivedObject where
  objectID : Int
  timeOfMeasurement : Int
  xDistance : Measured
  yDistance : Measured
  xSpeed : Measured
  ySpeed : Measured
  planarObjectDimension1 : Option Measured
  planarObjectDimension2 : Option Measured
  verticalObjectDimension : Option Measured
  yawAngle : Option Measured
deriving DecidableEq, Repr

/-- The record `cpmParameters`. Both containers are optional (pointers). -/
structure CpmParameters where
  managementContainer : CpmManagementContainer
  stationDataContainer : Option StationDataContainer
  perceivedObjectContainer : Option (List PerceivedObject)
  numberOfPerceivedObjects : Int
deriving DecidableEq, Repr

/-- The collective perception message. -/
structure CollectivePerceptionMessage where
  generationDeltaTime : Int
  cpmParameters : CpmParameters
deriving DecidableEq, Repr

/-- The whole wire message. -/
structure Cpm where
  header : ItsPduHeader
  cpm : CollectivePerceptionMessage
deriving DecidableEq, Repr

/-- The record `vanetza::PositionFix`, with the fields `send` fills in. -/
structure PositionFix (R : Type) where
  latitude : R
  longitude : R
  semi_major : R
  semi_minor : R

/-- The libraries called by the file and not part of it. -/
structure Env (R : Type) where
  /-- Yaw, pitch and roll of a quaternion: `tf2::Matrix3x3 matrix(quat)` followed by
  `matrix.getRPY`. -/
  getRPY : Quaternion R → RPY R
  /-- The quaternion of `tf2::Quaternion::setRPY roll pitch yaw`. -/
  setRPY : R → R → R → Quaternion R
  /-- The grid digits of a geodetic position: `UTMUPS::Forward`, `MGRS::Forward`
  with precision 5 and the two `std::stoi` of the easting and northing digits;
  `none` when one of them throws. -/
  mgrs : R → R → Option (Int × Int)
  /-- The conversion `copy(fix, referencePosition)` of vanetza. -/
  copy : PositionFix R → ReferencePosition
  /-- Whether the confirm of `Application::request` is accepted. -/
  request : Cpm → Bool
  /-- The content of a default-constructed `CpmApplication::Object`, whose
  members the constructor does not set. -/
  newObject : Object R

/-- The data members of `CpmApplication` (the node and runtime handles
apart). -/
structure CpmApplication (R : Type) where
  ego_x_ : R
  ego_y_ : R
  ego_lat_ : R
  ego_lon_ : R
  ego_altitude_ : R
  ego_heading_ : R
  generationDeltaTime_ : Int
  updating_objects_stack_ : Bool
  sending_ : Bool
  cpm_interval_ : Nat
  objectsStack : List (Object R)
  receivedObjectsStack : List (Object R)

/-! ## `updateObjectsStack` -/

/-- The value that lines 212-216 assign to `object.yawAngle` for the yaw returned
by `getRPY`. -/
def updateObjectsStack_yawAngle (m : Libm R) (yaw : R) : Int :=
  if yaw < 0 then lround (((yaw + 2 * m.M_PI) * 180.0 / m.M_PI) * 10.0)
  else lround ((yaw * 180.0 / m.M_PI) * 10.0)

/-- The body of the loop of `updateObjectsStack` (lines 190-219): the object
built from the raw object `obj` at index `i`. -/
def updateObjectsStack_object (m : Libm R) (env : Env R) (app : CpmApplication R)
    (stamp : Time) (i : Int) (obj : DynamicObject R) : Object R :=
  let position_x := obj.position.x
  let position_y := obj.position.y
  let yaw := (env.getRPY ⟨obj.orientation.x, obj.orientation.y, obj.orientation.z,
    obj.orientation.w⟩).yaw
  { objectID := i
    timestamp := stamp
    position_x := position_x
    position_y := position_y
    position_z := obj.position.z
    orientation_x := obj.orientation.x
    orientation_y := obj.orientation.y
    orientation_z := obj.orientation.z
    orientation_w := obj.orientation.w
    shape_x := lround (obj.dimensions.x * 10.0)
    shape_y := lround (obj.dimensions.y * 10.0)
    shape_z := lround (obj.dimensions.z * 10.0)
    xDistance := lround (((position_x - app.ego_x_) * m.cos (-app.ego_heading_)
      - (position_y - app.ego_y_) * m.sin (-app.ego_heading_)) * 100.0)
    yDistance := lround (((position_x - app.ego_x_) * m.sin (-app.ego_heading_)
      + (position_y - app.ego_y_) * m.cos (-app.ego_heading_)) * 100.0)
    xSpeed := 0
    ySpeed := 0
    yawAngle := updateObjectsStack_yawAngle m yaw
    timeOfMeasurement := 100 }

/-- The loop of `updateObjectsStack` (lines 187-225): every raw object is
converted and pushed to the back of the stack, and the index `i` is
incremented. -/
def updateObjectsStack_loop (m : Libm R) (env : Env R) (app : CpmApplication R)
    (stamp : Time) : List (DynamicObject R) → Int → List (Object R) → List (Object R)
  | [], _, stack => stack
  | obj :: rest, i, stack =>
    updateObjectsStack_loop m env app stamp rest (i + 1)
      (stack ++ [updateObjectsStack_object m env app stamp i obj])

/-- The method `CpmApplication::updateObjectsStack`. -/
def CpmApplication.updateObjectsStack (m : Libm R) (env : Env R) (app : CpmApplication R)
    (msg : DynamicObjectArray R) : CpmApplication R :=
  let app1 := { app with updating_objects_stack_ := true }
  if app1.sending_ then
    app1
  else
    let app2 := { app1 with objectsStack := [] }
    let app3 :=
      if msg.objects.length > 0 then
        { app2 with objectsStack :=
            updateObjectsStack_loop m env app2 msg.stamp msg.objects 0 app2.objectsStack }
      else app2
    { app3 with updating_objects_stack_ := false }

/-! ## `send` -/

/-- The enumerator `StationType_passengerCar` of the ASN.1 headers. -/
def StationType_passengerCar : Int := 5

/-- The enumerator `GenerationDeltaTime_oneMilliSec` of the ASN.1 headers. -/
def GenerationDeltaTime_oneMilliSec : Int := 1

/-- What a call of `send` leaves behind: the application state, the message it
built, and the `std::runtime_error` it threw, if any. -/
structure SendResult (R : Type) where
  app : CpmApplication R
  message : Cpm
  failure : Option String

/-- The right-hand side of line 281, the value `send` assigns to
`ovc.heading.headingValue`: the cast `(int)` applies to the result of `std::fmod`
and the product with 10 is taken afterwards. -/
def send_headingValue (m : Libm R) (ego_heading_ : R) : Int :=
  toInt (fmod ((1.5708 - ego_heading_) * 180 / m.M_PI) 360.0) * 10

/-- The body of the loop of `send` (lines 292-321): the wire entry of one object
of the stack. -/
def send_perceivedObject (object : Object R) : PerceivedObject :=
  { objectID := object.objectID
    timeOfMeasurement := object.timeOfMeasurement
    xDistance := { value := object.xDistance, confidence := 1 }
    yDistance := { value := object.yDistance, confidence := 1 }
    xSpeed := { value := object.xSpeed, confidence := 1 }
    ySpeed := { value := object.ySpeed, confidence := 1 }
    planarObjectDimension1 := some { value := object.shape_y, confidence := 1 }
    planarObjectDimension2 := some { value := object.shape_x, confidence := 1 }
    verticalObjectDimension := some { value := object.shape_z, confidence := 1 }
    yawAngle := some { value := object.yawAngle, confidence := 1 } }

/-- The message that `send` composes (lines 237-326). -/
def send_message (m : Libm R) (env : Env R) (app : CpmApplication R) : Cpm :=
  let fix : PositionFix R :=
    { latitude := app.ego_lat_
      longitude := app.ego_lon_
      semi_major := 1.0
      semi_minor := 1.0 }
  let ovc : OriginatingVehicleContainer :=
    { speed := { speedValue := 0, speedConfidence := 1 }
      heading := { headingValue := send_headingValue m app.ego_heading_
                   headingConfidence := 1 } }
  { header := { protocolVersion := 1, messageID := 14, stationID := 1 }
    cpm :=
      { generationDeltaTime := app.generationDeltaTime_ * GenerationDeltaTime_oneMilliSec
        cpmParameters :=
          { managementContainer :=
              { stationType := StationType_passengerCar
                referencePosition := env.copy fix }
            numberOfPerceivedObjects := (app.objectsStack.length : Int)
            stationDataContainer :=
              some { present := StationDataContainer_PR.originatingVehicleContainer
                     originatingVehicleContainer := ovc }
            perceivedObjectContainer :=
              if app.objectsStack.length > 0 then
                some (app.objectsStack.map send_perceivedObject)
              else none } } }

/-- The method `CpmApplication::send`: the busy flag is raised, the message is
composed and handed to `Application::request`; when the confirm is not accepted
the exception of line 343 leaves the method before line 354 is reached. -/
def CpmApplication.send (m : Libm R) (env : Env R) (app : CpmApplication R) : SendResult R :=
  let app1 := { app with sending_ := true }
  let message := send_message m env app1
  let accepted := env.request message
  if !accepted then
    { app := app1
      message := message
      failure := some "[SEND] CPM application data request failed" }
  else
    { app := { app1 with sending_ := false }
      message := message
      failure := none }

/-! ## `indicate` -/

/-- The ways `indicate` can fail to complete. -/
inductive Fault where
  /-- A null optional pointer is dereferenced. -/
  | nullDeref
  /-- GeographicLib or `std::stoi` throws. -/
  | projection
deriving DecidableEq, Repr

/-- What a completed call of `indicate` leaves behind: the application state and
the collections handed to `publishObjects`, in call order. -/
structure IndicateResult (R : Type) where
  app : CpmApplication R
  published : List (List (Object R))

/-- Dereference of an optional pointer of the wire structure. -/
def deref {α : Type} : Option α → Except Fault α
  | some a => Except.ok a
  | none => Except.error Fault.nullDeref

/-- The value `orientation` of line 101. -/
def indicate_orientation (m : Libm R) (heading : Int) : R :=
  1.5708 - (m.M_PI * (heading : R) / 10) / 180

/-- The value `yaw_radian` of line 128. -/
def indicate_yaw_radian (m : Libm R) (yawAngle : Int) : R :=
  (m.M_PI * (yawAngle : R) / 10) / 180

/-- The body of the loop of `indicate` (lines 113-137): the object decoded from
one wire entry. The object starts default-constructed and `objectID` is not
among the members assigned. -/
def indicate_object (m : Libm R) (env : Env R) (x_mgrs y_mgrs : Int) (orientation : R)
    (entry : PerceivedObject) : Except Fault (Object R) := do
  let object := env.newObject
  let x1 : R := (entry.xDistance.value : R)
  let y1 : R := (entry.yDistance.value : R)
  let x1 := x1 / 100.0
  let y1 := y1 / 100.0
  let object := { object with
    position_x := (x_mgrs : R) + (m.cos orientation * x1 - m.sin orientation * y1) }
  let object := { object with
    position_y := (y_mgrs : R) + (m.sin orientation * x1 + m.cos orientation * y1) }
  let planarObjectDimension2 ← deref entry.planarObjectDimension2
  let object := { object with shape_x := planarObjectDimension2.value }
  let planarObjectDimension1 ← deref entry.planarObjectDimension1
  let object := { object with shape_y := planarObjectDimension1.value }
  let verticalObjectDimension ← deref entry.verticalObjectDimension
  let object := { object with shape_z := verticalObjectDimension.value }
  let yawAngle ← deref entry.yawAngle
  let object := { object with yawAngle := yawAngle.value }
  let yaw_radian := indicate_yaw_radian m object.yawAngle
  let quat := env.setRPY 0 0 yaw_radian
  return { object with
    orientation_x := quat.x
    orientation_y := quat.y
    orientation_z := quat.z
    orientation_w := quat.w }

/-- The loop of `indicate` (lines 110-138): every wire entry is decoded and
pushed to the back of the received stack. -/
def indicate_loop (m : Libm R) (env : Env R) (x_mgrs y_mgrs : Int) (orientation : R) :
    List PerceivedObject → List (Object R) → Except Fault (List (Object R))
  | [], stack => Except.ok stack
  | entry :: rest, stack => do
    let object ← indicate_object m env x_mgrs y_mgrs orientation entry
    indicate_loop m env x_mgrs y_mgrs orientation rest (stack ++ [object])

/-- The method `CpmApplication::indicate`. The argument `packet` is the result of
the packet visitor: the decoded message, or `none` when the packet is not a
CPM. -/
def CpmApplication.indicate (m : Libm R) (env : Env R) (app : CpmApplication R)
    (packet : Option Cpm) : Except Fault (IndicateResult R) :=
  match packet with
  | some message => do
    let management := message.cpm.cpmParameters.managementContainer
    let lat : R := (management.referencePosition.latitude : R) / 1.0e7
    let lon : R := (management.referencePosition.longitude : R) / 1.0e7
    let (x_mgrs, y_mgrs) ←
      match env.mgrs lat lon with
      | some grid => Except.ok grid
      | none => Except.error Fault.projection
    let sdc ← deref message.cpm.cpmParameters.stationDataContainer
    let ovc := sdc.originatingVehicleContainer
    let heading := ovc.heading.headingValue
    let orientation := indicate_orientation m heading
    let app1 := { app with receivedObjectsStack := [] }
    match message.cpm.cpmParameters.perceivedObjectContainer with
    | some poc =>
      let stack ← indicate_loop m env x_mgrs y_mgrs orientation poc app1.receivedObjectsStack
      let app2 := { app1 with receivedObjectsStack := stack }
      return { app := app2, published := [app2.receivedObjectsStack] }
    | none =>
      return { app := app1, published := [] }
  | none =>
    return { app := app, published := [] }

/-! ## The setters of the positioning collaborator -/

/-- The method `CpmApplication::updateMGRS`. -/
def CpmApplication.updateMGRS (app : CpmApplication R) (x y : R) : CpmApplication R :=
  { app with ego_x_ := x, ego_y_ := y }

/-- The method `CpmApplication::updateRP`. -/
def CpmApplication.updateRP (app : CpmApplication R) (lat lon altitude : R) :
    CpmApplication R :=
  { app with ego_lat_ := lat, ego_lon_ := lon, ego_altitude_ := altitude }

/-- The method `CpmApplication::updateGenerationDeltaTime`. -/
def CpmApplication.updateGenerationDeltaTime (app : CpmApplication R) (gdt : Int) :
    CpmApplication R :=
  { app with generationDeltaTime_ := gdt }

/-- The method `CpmApplication::updateHeading`. -/
def CpmApplication.updateHeading (app : CpmApplication R) (yaw : R) : CpmApplication R :=
  { app with ego_heading_ := yaw }

/-! ## Instances used in the statements -/

/-- The real-number reading of `math.h`. -/
noncomputable def realLibm : Libm ℝ :=
  { M_PI := Real.pi
    cos := Real.cos
    sin := Real.sin }

/-- A set of collaborators over the reals: planar orientations (rotation about
the vertical axis), a station at grid position (1000, 2000), a gateway that
accepts every request, and zeroed default objects. -/
noncomputable def sampleEnv : Env ℝ :=
  { getRPY := fun q => { roll := 0, pitch := 0, yaw := 2 * Real.arctan (q.z / q.w) }
    setRPY := fun _ _ yaw =>
      { x := 0, y := 0, z := Real.sin (yaw / 2), w := Real.cos (yaw / 2) }
    mgrs := fun _ _ => some (1000, 2000)
    copy := fun fix =>
      { latitude := lround (fix.latitude * 10000000)
        longitude := lround (fix.longitude * 10000000)
        semiMajorConfidence := lround (fix.semi_major * 100)
        semiMinorConfidence := lround (fix.semi_minor * 100) }
    request := fun _ => true
    newObject :=
      { objectID := 0, timestamp := { sec := 0, nanosec := 0 }
        position_x := 0, position_y := 0, position_z := 0
        orientation_x := 0, orientation_y := 0, orientation_z := 0, orientation_w := 0
        shape_x := 0, shape_y := 0, shape_z := 0
        xDistance := 0, yDistance := 0, xSpeed := 0, ySpeed := 0
        yawAngle := 0, timeOfMeasurement := 0 } }

/-- The collaborators of `sampleEnv` with a gateway that rejects every
request. -/
noncomputable def rejectingEnv : Env ℝ :=
  { sampleEnv with request := fun _ => false }

/-- The state the constructor leaves (lines 33-48), placed at grid position
(1000, 2000) with heading 0. -/
def sampleApp : CpmApplication ℝ :=
  { ego_x_ := 1000, ego_y_ := 2000
    ego_lat_ := 0, ego_lon_ := 0, ego_altitude_ := 0
    ego_heading_ := 0
    generationDeltaTime_ := 0
    updating_objects_stack_ := false
    sending_ := false
    cpm_interval_ := 1000
    objectsStack := []
    receivedObjectsStack := [] }

/-- A raw object: a box of 1 m x 2 m x 3 m at world position (1010, 2000, 0) with
the identity orientation. -/
def sampleObject : DynamicObject ℝ :=
  { position := { x := 1010, y := 2000, z := 0 }
    orientation := { x := 0, y := 0, z := 0, w := 1 }
    dimensions := { x := 1, y := 2, z := 3 } }

/-- A perception batch made of `sampleObject` alone. -/
def sampleBatch : DynamicObjectArray ℝ :=
  { stamp := { sec := 5, nanosec := 0 }
    objects := [sampleObject] }

/-- The state `sampleApp` while an encode is in progress, holding one object. -/
noncomputable def busyApp : CpmApplication ℝ :=
  { sampleApp with
    sending_ := true
    objectsStack :=
      [updateObjectsStack_object realLibm sampleEnv sampleApp sampleBatch.stamp 0 sampleObject] }

/-- Whether the four optional fields that `indicate` dereferences are present in
a wire entry. -/
def PerceivedObject.hasOptionalFields (entry : PerceivedObject) : Bool :=
  entry.planarObjectDimension1.isSome && entry.planarObjectDimension2.isSome &&
    entry.verticalObjectDimension.isSome && entry.yawAngle.isSome

/-- A wire entry with the given identifier, 10 m ahead of the sender. -/
def sampleEntry (objectID : Int) : PerceivedObject :=
  { objectID := objectID
    timeOfMeasurement := 100
    xDistance := { value := 1000, confidence := 1 }
    yDistance := { value := 0, confidence := 1 }
    xSpeed := { value := 0, confidence := 1 }
    ySpeed := { value := 0, confidence := 1 }
    planarObjectDimension1 := some { value := 20, confidence := 1 }
    planarObjectDimension2 := some { value := 10, confidence := 1 }
    verticalObjectDimension := some { value := 30, confidence := 1 }
    yawAngle := some { value := 0, confidence := 1 } }

/-- A decodable message that carries two perceived objects, with the
identifiers 7 and 8. -/
def sampleCpm : Cpm :=
  { header := { protocolVersion := 1, messageID := 14, stationID := 1 }
    cpm :=
      { generationDeltaTime := 0
        cpmParameters :=
          { managementContainer :=
              { stationType := StationType_passengerCar
                referencePosition :=
                  { latitude := 0, longitude := 0
                    semiMajorConfidence := 100, semiMinorConfidence := 100 } }
            stationDataContainer :=
              some { present := StationDataContainer_PR.originatingVehicleContainer
                     originatingVehicleContainer :=
                       { heading := { headingValue := 900, headingConfidence := 1 }
                         speed := { speedValue := 0, speedConfidence := 1 } } }
            perceivedObjectContainer := some [sampleEntry 7, sampleEntry 8]
            numberOfPerceivedObjects := 2 } } }

/-- The message `sampleCpm` without its station data container. -/
def sampleCpmWithoutStationData : Cpm :=
  { sampleCpm with
    cpm := { sampleCpm.cpm with
      cpmParameters := { sampleCpm.cpm.cpmParameters with stationDataContainer := none } } }

/-- The message `sampleCpm` with one entry, which omits its yaw angle. -/
def sampleCpmWithoutYaw : Cpm :=
  { sampleCpm with
    cpm := { sampleCpm.cpm with
      cpmParameters := { sampleCpm.cpm.cpmParameters with
        perceivedObjectContainer := some [{ sampleEntry 7 with yawAngle := none }]
        numberOfPerceivedObjects := 1 } } }

/-! ## Scheduler -/

/-- The vanetza `Runtime`, reduced to the triggers that are pending for this
application (scope `this`): the delay each was scheduled with, in milliseconds,
in scheduling order. -/
structure Runtime where
  pending : List Nat
deriving DecidableEq, Repr

/-- The call `runtime_.schedule(d, callback, this)`: one more pending trigger. -/
def Runtime.schedule (rt : Runtime) (d : Nat) : Runtime :=
  { pending := rt.pending ++ [d] }

/-- The call `runtime_.cancel(this)`: every pending trigger of this application
is dropped. -/
def Runtime.cancel (_rt : Runtime) : Runtime :=
  { pending := [] }

/-- The method `CpmApplication::schedule_timer`. -/
def CpmApplication.schedule_timer (app : CpmApplication R) (rt : Runtime) : Runtime :=
  rt.schedule app.cpm_interval_

/-- The method `CpmApplication::set_interval`. -/
def CpmApplication.set_interval (app : CpmApplication R) (rt : Runtime) (interval : Nat) :
    CpmApplication R × Runtime :=
  let app1 := { app with cpm_interval_ := interval }
  let rt1 := rt.cancel
  (app1, app1.schedule_timer rt1)

/-- The method `CpmApplication::on_timer`: the next trigger is scheduled, then
`send` runs; the exception of `send`, if any, leaves through `on_timer` with the
trigger already scheduled. -/
def CpmApplication.on_timer (m : Libm R) (env : Env R) (app : CpmApplication R)
    (rt : Runtime) : SendResult R × Runtime :=
  let rt1 := app.schedule_timer rt
  let result := app.send m env
  (result, rt1)

/-- The constructor of `CpmApplication` (lines 33-48): the members of the
initializer list, empty stacks, and `set_interval(milliseconds(1000))`. -/
def CpmApplication.construct (rt : Runtime) : CpmApplication R × Runtime :=
  CpmApplication.set_interval
    { ego_x_ := 0, ego_y_ := 0
      ego_lat_ := 0, ego_lon_ := 0, ego_altitude_ := 0
      ego_heading_ := 0
      generationDeltaTime_ := 0
      updating_objects_stack_ := false
      sending_ := false
      cpm_interval_ := 0
      objectsStack := []
      receivedObjectsStack := [] }
    rt 1000

/-- A tick of the runtime: the trigger that is due is removed from the pending
ones and its callback `on_timer` is invoked; `none` when nothing is pending. -/
def Runtime.trigger (m : Libm R) (env : Env R) (app : CpmApplication R) (rt : Runtime) :
    Option (SendResult R × Runtime) :=
  match rt.pending with
  | [] => none
  | _ :: rest => some (app.on_timer m env { pending := rest })

/-- The scheduler invariant: exactly one trigger is pending and its delay is the
current `cpm_interval_`. -/
def SchedulerInvariant (app : CpmApplication R) (rt : Runtime) : Prop :=
  rt.pending = [app.cpm_interval_]

end v2x

/-! # Theorems -/

namespace v2x

variable {R : Type} [LinearOrderedField R] [FloorRing R]

/-! ## The numeric primitives -/

theorem lround_of_nonneg {x : R} (h : 0 ≤ x) : lround x = ⌊x + 1 / 2⌋ := by
  simp [lround, h]

theorem lround_of_neg {x : R} (h : x < 0) : lround x = ⌈x - 1 / 2⌉ := by
  simp [lround, not_le.mpr h]

theorem lround_intCast (n : Int) : lround (n : R) = n := by
  unfold lround
  split
  · rw [Int.floor_eq_iff]
    constructor <;> norm_num
  · rw [Int.ceil_eq_iff]
    constructor <;> norm_num

theorem lround_eq_of_nonneg {x : R} {n : Int} (h0 : 0 ≤ x) (hlo : (n : R) - 1 / 2 ≤ x)
    (hhi : x < (n : R) + 1 / 2) : lround x = n := by
  rw [lround_of_nonneg h0, Int.floor_eq_iff]
  constructor <;> linarith

theorem toInt_of_nonneg {x : R} (h : 0 ≤ x) : toInt x = ⌊x⌋ := by
  simp [toInt, h]

theorem toInt_of_neg {x : R} (h : x < 0) : toInt x = ⌈x⌉ := by
  simp [toInt, not_le.mpr h]

theorem toInt_eq_zero {x : R} (hlo : -1 < x) (hhi : x < 1) : toInt x = 0 := by
  unfold toInt
  split
  · rw [Int.floor_eq_iff]
    constructor
    · simpa using ‹0 ≤ x›
    · simpa using hhi
  · rw [Int.ceil_eq_iff]
    constructor
    · simpa using hlo
    · have : x < 0 := not_le.mp ‹¬ 0 ≤ x›
      simpa using this.le

theorem fmod_eq_self {x y : R} (hy : 0 < y) (hlo : -y < x) (hhi : x < y) : fmod x y = x := by
  have h1 : -1 < x / y := by
    rw [lt_div_iff₀ hy]
    linarith
  have h2 : x / y < 1 := by
    rw [div_lt_iff₀ hy]
    linarith
  simp [fmod, toInt_eq_zero h1 h2]

theorem fmod_360 {x : R} (hlo : -360 < x) (hhi : x < 360) : fmod x (360.0 : R) = x := by
  have h : (360.0 : R) = 360 := by norm_num
  rw [h]
  exact fmod_eq_self (by norm_num) hlo hhi

theorem send_message_eq (m : Libm R) (env : Env R) (app : CpmApplication R) :
    (app.send m env).message = send_message m env { app with sending_ := true } := by
  dsimp only [CpmApplication.send]
  split <;> rfl

/-! ## Busy flag -/

/-- C1. While the busy flag `sending_` is set, `updateObjectsStack` skips the
rebuild: the outbound stack after the call equals the stack before it, for
every perception batch. -/
theorem updateObjectsStack_skips_while_sending (m : Libm R) (env : Env R)
    (app : CpmApplication R) (msg : DynamicObjectArray R) (h : app.sending_ = true) :
    (app.updateObjectsStack m env msg).objectsStack = app.objectsStack := by
  simp [CpmApplication.updateObjectsStack, h]

/-- C1, instance: the busy state `busyApp` keeps its one-object stack when the
batch `sampleBatch` arrives. -/
theorem updateObjectsStack_skips_while_sending_witness :
    busyApp.sending_ = true ∧
      (busyApp.updateObjectsStack realLibm sampleEnv sampleBatch).objectsStack
        = busyApp.objectsStack :=
  ⟨rfl, updateObjectsStack_skips_while_sending realLibm sampleEnv busyApp sampleBatch rfl⟩

/-- C2, the failing path. When the gateway does not accept the request, `send`
throws at line 343 and never reaches line 354: the failure is reported, the
busy flag is still set afterwards, and the next `updateObjectsStack` is skipped
(the stack keeps its content whatever the batch). -/
theorem send_rejected_leaves_sending_set (m : Libm R) (env : Env R) (app : CpmApplication R)
    (msg : DynamicObjectArray R) :
    ((app.send m { env with request := fun _ => false }).failure
        = some "[SEND] CPM application data request failed") ∧
      (app.send m { env with request := fun _ => false }).app.sending_ = true ∧
      (((app.send m { env with request := fun _ => false }).app.updateObjectsStack
          m env msg).objectsStack = app.objectsStack) := by
  simp [CpmApplication.send, CpmApplication.updateObjectsStack]

/-- The accepted path of `send`: it returns normally with the busy flag
cleared. -/
theorem send_accepted_clears_sending (m : Libm R) (env : Env R) (app : CpmApplication R) :
    (app.send m { env with request := fun _ => true }).failure = none ∧
      (app.send m { env with request := fun _ => true }).app.sending_ = false := by
  simp [CpmApplication.send]

/-! ## Heading -/

theorem send_headingValue_two : send_headingValue realLibm 2 = -240 := by
  have hpi1 := Real.pi_gt_d2
  have hpi2 := Real.pi_lt_d2
  have hpos : (0 : ℝ) < Real.pi := Real.pi_pos
  have hx1 : (-25 : ℝ) < (1.5708 - 2) * 180 / Real.pi := by
    rw [lt_div_iff₀ hpos]
    norm_num
    linarith
  have hx2 : (1.5708 - 2) * 180 / Real.pi < (-24 : ℝ) := by
    rw [div_lt_iff₀ hpos]
    norm_num
    linarith
  have hf : fmod ((1.5708 - 2) * 180 / Real.pi) (360.0 : ℝ)
      = (1.5708 - 2) * 180 / Real.pi := by
    apply fmod_360 <;> linarith
  have ht : toInt ((1.5708 - 2) * 180 / Real.pi : ℝ) = -24 := by
    rw [toInt_of_neg (by linarith), Int.ceil_eq_iff]
    constructor
    · push_cast
      linarith
    · push_cast
      linarith
  simp only [send_headingValue, realLibm]
  rw [hf, ht]
  norm_num

theorem send_headingValue_near_base : send_headingValue realLibm 1.5608 = 0 := by
  have hpi1 := Real.pi_gt_d2
  have hpi2 := Real.pi_lt_d2
  have hpos : (0 : ℝ) < Real.pi := Real.pi_pos
  have hx1 : (0 : ℝ) < (1.5708 - 1.5608) * 180 / Real.pi := by
    apply div_pos _ hpos
    norm_num
  have hx2 : (1.5708 - 1.5608) * 180 / Real.pi < (1 : ℝ) := by
    rw [div_lt_iff₀ hpos]
    norm_num
    linarith
  have hf : fmod ((1.5708 - 1.5608) * 180 / Real.pi) (360.0 : ℝ)
      = (1.5708 - 1.5608) * 180 / Real.pi := by
    apply fmod_360 <;> linarith
  have ht : toInt ((1.5708 - 1.5608) * 180 / Real.pi : ℝ) = 0 :=
    toInt_eq_zero (by linarith) hx2
  simp only [send_headingValue, realLibm]
  rw [hf, ht]
  norm_num

/-- C3, the failing input. For the ego heading 2 rad the message built by
`send` carries `headingValue = -240`: `std::fmod` keeps the sign of its first
argument, so the value leaves the range [0, 3600). -/
theorem send_headingValue_negative :
    ((sampleApp.updateHeading 2).send realLibm sampleEnv).message.cpm.cpmParameters.stationDataContainer
        = some { present := StationDataContainer_PR.originatingVehicleContainer
                 originatingVehicleContainer :=
                   { heading := { headingValue := -240, headingConfidence := 1 }
                     speed := { speedValue := 0, speedConfidence := 1 } } } ∧
      ¬ (0 ≤ send_headingValue realLibm 2 ∧ send_headingValue realLibm 2 < 3600) := by
  constructor
  · rw [send_message_eq]
    simp [send_message, CpmApplication.updateHeading, sampleApp, send_headingValue_two]
  · rw [send_headingValue_two]
    decide

/-- C4, the failing input. For the ego heading 1.5608 rad `send` writes
`headingValue = 0` (the cast truncates to whole degrees before the product with
10), `indicate` decodes the orientation 1.5708, and no multiple of 2 pi brings
the two within 0.05 degrees of each other: they are 0.01 rad (0.57 degrees)
apart. -/
theorem heading_round_trip_off_by_half_degree :
    send_headingValue realLibm 1.5608 = 0 ∧
      indicate_orientation realLibm (send_headingValue realLibm 1.5608) = 1.5708 ∧
      ¬ ∃ k : Int,
        |indicate_orientation realLibm (send_headingValue realLibm 1.5608) - 1.5608
            - 2 * Real.pi * (k : ℝ)| ≤ 0.05 * Real.pi / 180 := by
  have hpi1 := Real.pi_gt_d2
  have hpi2 := Real.pi_lt_d2
  have ho : indicate_orientation realLibm (send_headingValue realLibm 1.5608) = 1.5708 := by
    rw [send_headingValue_near_base]
    simp [indicate_orientation]
  refine ⟨send_headingValue_near_base, ho, ?_⟩
  rintro ⟨k, hk⟩
  rw [ho, abs_le] at hk
  obtain ⟨hk1, hk2⟩ := hk
  rcases lt_trichotomy k 0 with hneg | hzero | hpos
  · have : (k : ℝ) ≤ -1 := by exact_mod_cast Int.le_sub_one_of_lt hneg
    nlinarith
  · subst hzero
    norm_num at hk2
    linarith
  · have : (1 : ℝ) ≤ (k : ℝ) := by exact_mod_cast hpos
    nlinarith

/-! ## Rebuild of the outbound stack -/

theorem updateObjectsStack_object_congr (m : Libm R) (env : Env R) (app app1 : CpmApplication R)
    (hx : app1.ego_x_ = app.ego_x_) (hy : app1.ego_y_ = app.ego_y_)
    (hh : app1.ego_heading_ = app.ego_heading_) (stamp : Time) (i : Int)
    (obj : DynamicObject R) :
    updateObjectsStack_object m env app1 stamp i obj
      = updateObjectsStack_object m env app stamp i obj := by
  simp [updateObjectsStack_object, hx, hy, hh]

theorem updateObjectsStack_loop_eq (m : Libm R) (env : Env R) (app : CpmApplication R)
    (stamp : Time) (objs : List (DynamicObject R)) (n : Nat) (stack : List (Object R)) :
    updateObjectsStack_loop m env app stamp objs (n : Int) stack
      = stack ++ (objs.enumFrom n).map
          (fun p => updateObjectsStack_object m env app stamp (p.1 : Int) p.2) := by
  induction objs generalizing n stack with
  | nil => simp [updateObjectsStack_loop]
  | cons obj rest ih =>
    have h := ih (n + 1) (stack ++ [updateObjectsStack_object m env app stamp n obj])
    simp only [Nat.cast_add, Nat.cast_one] at h
    simp [updateObjectsStack_loop, h, List.enumFrom]

theorem updateObjectsStack_loop_zero (m : Libm R) (env : Env R) (app : CpmApplication R)
    (stamp : Time) (objs : List (DynamicObject R)) :
    updateObjectsStack_loop m env app stamp objs 0 []
      = (objs.enumFrom 0).map
          (fun p => updateObjectsStack_object m env app stamp (p.1 : Int) p.2) := by
  simpa using updateObjectsStack_loop_eq m env app stamp objs 0 []

theorem updateObjectsStack_objectsStack (m : Libm R) (env : Env R) (app : CpmApplication R)
    (msg : DynamicObjectArray R) (h : app.sending_ = false) :
    (app.updateObjectsStack m env msg).objectsStack
      = (msg.objects.enumFrom 0).map
          (fun p => updateObjectsStack_object m env app msg.stamp (p.1 : Int) p.2) := by
  unfold CpmApplication.updateObjectsStack
  simp only [h, Bool.false_eq_true, if_false]
  split
  · simp only [updateObjectsStack_loop_zero]
    rfl
  · have hnil : msg.objects = [] := by
      cases hobjs : msg.objects with
      | nil => rfl
      | cons obj rest => simp_all
    simp [hnil]

theorem updateObjectsStack_getElem (m : Libm R) (env : Env R) (app : CpmApplication R)
    (msg : DynamicObjectArray R) (h : app.sending_ = false) (i : Nat)
    (hi : i < msg.objects.length) :
    (app.updateObjectsStack m env msg).objectsStack[i]?
      = some (updateObjectsStack_object m env app msg.stamp (i : Int)
          (msg.objects.get ⟨i, hi⟩)) := by
  rw [updateObjectsStack_objectsStack m env app msg h]
  simp [List.getElem?_eq_getElem, hi]

theorem updateObjectsStack_length (m : Libm R) (env : Env R) (app : CpmApplication R)
    (msg : DynamicObjectArray R) (h : app.sending_ = false) :
    (app.updateObjectsStack m env msg).objectsStack.length = msg.objects.length := by
  simp [updateObjectsStack_objectsStack m env app msg h]

/-- C5. With the busy flag clear, `updateObjectsStack` replaces the outbound
stack by one object per raw object of the batch: the stack has exactly `N`
objects, the object at position `i` is the one built from the raw object at
position `i` (nothing of the previous stack remains), its `objectID` is `i`,
and the identifiers are `0, 1, ..., N - 1` without duplicate. -/
theorem updateObjectsStack_rebuilds (m : Libm R) (env : Env R) (app : CpmApplication R)
    (msg : DynamicObjectArray R) (h : app.sending_ = false) :
    (app.updateObjectsStack m env msg).objectsStack.length = msg.objects.length ∧
      (∀ (i : Nat) (hi : i < msg.objects.length),
        (app.updateObjectsStack m env msg).objectsStack[i]?
          = some (updateObjectsStack_object m env app msg.stamp (i : Int)
              (msg.objects.get ⟨i, hi⟩))) ∧
      (∀ (i : Nat) (hi : i < (app.updateObjectsStack m env msg).objectsStack.length),
        ((app.updateObjectsStack m env msg).objectsStack.get ⟨i, hi⟩).objectID = (i : Int)) ∧
      (app.updateObjectsStack m env msg).objectsStack.map (fun o => o.objectID)
        = (List.range msg.objects.length).map (fun (i : Nat) => (i : Int)) ∧
      ((app.updateObjectsStack m env msg).objectsStack.map (fun o => o.objectID)).Nodup := by
  have hs := updateObjectsStack_objectsStack m env app msg h
  have hids : (app.updateObjectsStack m env msg).objectsStack.map (fun o => o.objectID)
      = (List.range msg.objects.length).map (fun (i : Nat) => (i : Int)) := by
    rw [hs]
    apply List.ext_getElem
    · simp
    · intro i h1 h2
      simp [updateObjectsStack_object]
  refine ⟨updateObjectsStack_length m env app msg h, ?_, ?_, hids, ?_⟩
  · intro i hi
    exact updateObjectsStack_getElem m env app msg h i hi
  · intro i hi
    have hlen : i < msg.objects.length := by simpa [hs] using hi
    have := congrArg (fun l => l[i]?) hids
    simp only [List.getElem?_map, List.getElem?_eq_getElem hi, Option.map_some,
      List.getElem?_range hlen] at this
    simpa using this
  · rw [hids]
    exact (List.nodup_range _).map (fun a b hab => by exact_mod_cast hab)

/-- C5, instance: the idle state `sampleApp` receiving `sampleBatch`. -/
theorem updateObjectsStack_rebuilds_witness :
    sampleApp.sending_ = false ∧
      (sampleApp.updateObjectsStack realLibm sampleEnv sampleBatch).objectsStack.length
        = sampleBatch.objects.length :=
  ⟨rfl, (updateObjectsStack_rebuilds realLibm sampleEnv sampleApp sampleBatch rfl).1⟩

end v2x

namespace v2x

variable {R : Type} [LinearOrderedField R] [FloorRing R]

/-! ## Shape dimensions -/

/-- C6, counterexample. The box of 1 m x 2 m x 3 m is stored with
`shape_x = 10`, while its first dimension in centimeters is 100. -/
theorem shape_not_in_centimeters :
    (updateObjectsStack_object realLibm sampleEnv sampleApp sampleBatch.stamp 0
        sampleObject).shape_x = 10 ∧
      lround (100 * sampleObject.dimensions.x) = 100 ∧
      (send_perceivedObject (updateObjectsStack_object realLibm sampleEnv sampleApp
        sampleBatch.stamp 0 sampleObject)).planarObjectDimension2
        = some { value := 10, confidence := 1 } := by
  have h10 : lround (10.0 : ℝ) = 10 := by
    have := lround_intCast (R := ℝ) 10
    norm_num at this ⊢
    exact this
  have h100 : lround (100 : ℝ) = 100 := by
    have := lround_intCast (R := ℝ) 100
    norm_num at this ⊢
    exact this
  simp [updateObjectsStack_object, send_perceivedObject, sampleObject, h10, h100]

/-- C6, amended. Every shape value is the dimension in units of 0.1 m: the
stored `shape_x`, `shape_y`, `shape_z` are `lround (10 * d)` of the raw
dimensions, and for a batch received with the busy flag clear the wire entry at
position `i` of the message built by `send` carries the rounded y dimension in
`planarObjectDimension1`, the rounded x dimension in `planarObjectDimension2`
and the rounded z dimension in `verticalObjectDimension`. -/
theorem shape_in_decimeters (m : Libm R) (env : Env R) (app : CpmApplication R)
    (msg : DynamicObjectArray R) (h : app.sending_ = false) (i : Nat)
    (hi : i < msg.objects.length) :
    ∃ (object : Object R) (poc : List PerceivedObject) (entry : PerceivedObject),
      (app.updateObjectsStack m env msg).objectsStack[i]? = some object ∧
      object.shape_x = lround ((msg.objects.get ⟨i, hi⟩).dimensions.x * 10) ∧
      object.shape_y = lround ((msg.objects.get ⟨i, hi⟩).dimensions.y * 10) ∧
      object.shape_z = lround ((msg.objects.get ⟨i, hi⟩).dimensions.z * 10) ∧
      ((app.updateObjectsStack m env msg).send m env).message.cpm.cpmParameters.perceivedObjectContainer
        = some poc ∧
      poc[i]? = some entry ∧
      entry.planarObjectDimension1
        = some { value := lround ((msg.objects.get ⟨i, hi⟩).dimensions.y * 10), confidence := 1 } ∧
      entry.planarObjectDimension2
        = some { value := lround ((msg.objects.get ⟨i, hi⟩).dimensions.x * 10), confidence := 1 } ∧
      entry.verticalObjectDimension
        = some { value := lround ((msg.objects.get ⟨i, hi⟩).dimensions.z * 10), confidence := 1 } := by
  have hlen := updateObjectsStack_length m env app msg h
  have hget := updateObjectsStack_getElem m env app msg h
  have h10 : (10.0 : R) = 10 := by norm_num
  refine ⟨updateObjectsStack_object m env app msg.stamp (i : Int) (msg.objects.get ⟨i, hi⟩),
    (app.updateObjectsStack m env msg).objectsStack.map send_perceivedObject,
    send_perceivedObject
      (updateObjectsStack_object m env app msg.stamp (i : Int) (msg.objects.get ⟨i, hi⟩)),
    hget i hi, ?_, ?_, ?_, ?_, ?_, ?_, ?_, ?_⟩
  · simp [updateObjectsStack_object, h10]
  · simp [updateObjectsStack_object, h10]
  · simp [updateObjectsStack_object, h10]
  · rw [send_message_eq]
    have hpos : 0 < (app.updateObjectsStack m env msg).objectsStack.length := by omega
    simp only [send_message, gt_iff_lt, hpos, if_true]
  · simp [hget i hi]
  · simp [send_perceivedObject, updateObjectsStack_object, h10]
  · simp [send_perceivedObject, updateObjectsStack_object, h10]
  · simp [send_perceivedObject, updateObjectsStack_object, h10]

/-- C6, instance of the amended statement: the idle state `sampleApp` receiving
`sampleBatch`, entry 0. -/
theorem shape_in_decimeters_witness :
    sampleApp.sending_ = false ∧ 0 < sampleBatch.objects.length ∧
    ∃ (object : Object ℝ),
      (sampleApp.updateObjectsStack realLibm sampleEnv sampleBatch).objectsStack[0]? = some object ∧
      object.shape_x = lround ((1 : ℝ) * 10) := by
  refine ⟨rfl, by decide, ?_⟩
  obtain ⟨object, -, -, h1, h2, -⟩ :=
    shape_in_decimeters realLibm sampleEnv sampleApp sampleBatch rfl 0 (by decide)
  exact ⟨object, h1, h2⟩

/-! ## Yaw -/

theorem yawAngle_neg_eq (yaw : ℝ) :
    ((yaw + 2 * Real.pi) * 180.0 / Real.pi) * 10.0 = 1800 * (yaw / Real.pi) + 3600 := by
  have hpos : Real.pi ≠ 0 := Real.pi_ne_zero
  field_simp
  ring

theorem yawAngle_nonneg_eq (yaw : ℝ) :
    (yaw * 180.0 / Real.pi) * 10.0 = 1800 * (yaw / Real.pi) := by
  have hpos : Real.pi ≠ 0 := Real.pi_ne_zero
  field_simp
  ring

theorem yawAngle_of_neg {yaw : ℝ} (h : yaw < 0) :
    updateObjectsStack_yawAngle realLibm yaw = lround (1800 * (yaw / Real.pi) + 3600) := by
  simp only [updateObjectsStack_yawAngle, realLibm, h, if_true, yawAngle_neg_eq]

theorem yawAngle_of_nonneg {yaw : ℝ} (h : 0 ≤ yaw) :
    updateObjectsStack_yawAngle realLibm yaw = lround (1800 * (yaw / Real.pi)) := by
  simp only [updateObjectsStack_yawAngle, realLibm, not_lt.mpr h, if_false, yawAngle_nonneg_eq]

theorem yawAngle_range (yaw : ℝ) (hlo : -Real.pi < yaw) (hhi : yaw ≤ Real.pi) :
    (yaw < 0 → 1800 ≤ updateObjectsStack_yawAngle realLibm yaw
        ∧ updateObjectsStack_yawAngle realLibm yaw ≤ 3600) ∧
      (0 ≤ yaw → 0 ≤ updateObjectsStack_yawAngle realLibm yaw
        ∧ updateObjectsStack_yawAngle realLibm yaw ≤ 1800) := by
  have hpos : (0 : ℝ) < Real.pi := Real.pi_pos
  have hu1 : -1 < yaw / Real.pi := by
    rw [lt_div_iff₀ hpos]
    linarith
  have hu2 : yaw / Real.pi ≤ 1 := by
    rw [div_le_iff₀ hpos]
    linarith
  constructor
  · intro hneg
    have hu3 : yaw / Real.pi < 0 := div_neg_of_neg_of_pos hneg hpos
    have h0 : (0 : ℝ) ≤ 1800 * (yaw / Real.pi) + 3600 := by linarith
    rw [yawAngle_of_neg hneg, lround_of_nonneg h0]
    constructor
    · apply Int.le_floor.mpr
      push_cast
      linarith
    · apply Int.lt_add_one_iff.mp
      apply Int.floor_lt.mpr
      push_cast
      linarith
  · intro hnn
    have hu3 : 0 ≤ yaw / Real.pi := div_nonneg hnn hpos.le
    have h0 : (0 : ℝ) ≤ 1800 * (yaw / Real.pi) := by linarith
    rw [yawAngle_of_nonneg hnn, lround_of_nonneg h0]
    constructor
    · apply Int.le_floor.mpr
      push_cast
      linarith
    · apply Int.lt_add_one_iff.mp
      apply Int.floor_lt.mpr
      push_cast
      linarith

/-- C7, counterexample. The yaw -0.0001 rad lies in (-pi, 0) and is encoded as
3600, outside [1800, 3600): the rounding of 3599.94 goes up. -/
theorem yawAngle_reaches_3600 :
    -Real.pi < (-0.0001 : ℝ) ∧ (-0.0001 : ℝ) < 0 ∧
      updateObjectsStack_yawAngle realLibm (-0.0001) = 3600 ∧
      ¬ (1800 ≤ updateObjectsStack_yawAngle realLibm (-0.0001)
          ∧ updateObjectsStack_yawAngle realLibm (-0.0001) < 3600) := by
  have hpos : (0 : ℝ) < Real.pi := Real.pi_pos
  have hpi := Real.pi_gt_d2
  have hneg : (-0.0001 : ℝ) < 0 := by norm_num
  have hu1 : -(0.0001 : ℝ) < (-0.0001 : ℝ) / Real.pi := by
    rw [lt_div_iff₀ hpos]
    nlinarith
  have hu2 : (-0.0001 : ℝ) / Real.pi < 0 := div_neg_of_neg_of_pos hneg hpos
  have hval : updateObjectsStack_yawAngle realLibm (-0.0001) = 3600 := by
    rw [yawAngle_of_neg hneg]
    apply lround_eq_of_nonneg
    · linarith
    · push_cast
      linarith
    · push_cast
      linarith
  refine ⟨by linarith, hneg, hval, ?_⟩
  rw [hval]
  decide

/-- C7, amended. For every object whose yaw, as returned by `getRPY`, lies in
(-pi, 0), the `yawAngle` stored by `updateObjectsStack` lies in [1800, 3600],
both ends included; for every yaw in [0, pi] it lies in [0, 1800]. -/
theorem updateObjectsStack_yawAngle_range (env : Env ℝ) (app : CpmApplication ℝ)
    (stamp : Time) (i : Int) (obj : DynamicObject ℝ)
    (hlo : -Real.pi < (env.getRPY obj.orientation).yaw)
    (hhi : (env.getRPY obj.orientation).yaw ≤ Real.pi) :
    ((env.getRPY obj.orientation).yaw < 0 →
        1800 ≤ (updateObjectsStack_object realLibm env app stamp i obj).yawAngle ∧
        (updateObjectsStack_object realLibm env app stamp i obj).yawAngle ≤ 3600) ∧
      (0 ≤ (env.getRPY obj.orientation).yaw →
        0 ≤ (updateObjectsStack_object realLibm env app stamp i obj).yawAngle ∧
        (updateObjectsStack_object realLibm env app stamp i obj).yawAngle ≤ 1800) :=
  yawAngle_range (env.getRPY obj.orientation).yaw hlo hhi

theorem sampleObject_yaw : (sampleEnv.getRPY sampleObject.orientation).yaw = 0 := by
  simp [sampleEnv, sampleObject]

/-- C7, instance of the amended statement: `sampleObject`, whose yaw is 0. -/
theorem updateObjectsStack_yawAngle_range_witness :
    -Real.pi < (sampleEnv.getRPY sampleObject.orientation).yaw ∧
      (sampleEnv.getRPY sampleObject.orientation).yaw ≤ Real.pi ∧
      0 ≤ (updateObjectsStack_object realLibm sampleEnv sampleApp sampleBatch.stamp 0
        sampleObject).yawAngle ∧
      (updateObjectsStack_object realLibm sampleEnv sampleApp sampleBatch.stamp 0
        sampleObject).yawAngle ≤ 1800 := by
  have hpos : (0 : ℝ) < Real.pi := Real.pi_pos
  have h1 : -Real.pi < (sampleEnv.getRPY sampleObject.orientation).yaw := by
    rw [sampleObject_yaw]
    linarith
  have h2 : (sampleEnv.getRPY sampleObject.orientation).yaw ≤ Real.pi := by
    rw [sampleObject_yaw]
    linarith
  exact ⟨h1, h2,
    (updateObjectsStack_yawAngle_range sampleEnv sampleApp sampleBatch.stamp 0 sampleObject
      h1 h2).2 (le_of_eq sampleObject_yaw.symm)⟩

end v2x

namespace v2x

variable {R : Type} [LinearOrderedField R]

/-! ## Decoding -/

theorem indicate_object_ok (m : Libm R) (env : Env R) (x_mgrs y_mgrs : Int) (orientation : R)
    (entry : PerceivedObject) (h : entry.hasOptionalFields = true) :
    ∃ object, indicate_object m env x_mgrs y_mgrs orientation entry = Except.ok object := by
  obtain ⟨id, tm, xd, yd, xs, ys, d1, d2, dv, ya⟩ := entry
  simp only [PerceivedObject.hasOptionalFields, Bool.and_eq_true, Option.isSome_iff_exists] at h
  obtain ⟨⟨⟨⟨v1, h1⟩, ⟨v2, h2⟩⟩, ⟨v3, h3⟩⟩, ⟨v4, h4⟩⟩ := h
  subst h1 h2 h3 h4
  exact ⟨_, rfl⟩

theorem indicate_object_objectID (m : Libm R) (env : Env R) (x_mgrs y_mgrs : Int)
    (orientation : R) (entry : PerceivedObject) (object : Object R)
    (h : indicate_object m env x_mgrs y_mgrs orientation entry = Except.ok object) :
    object.objectID = env.newObject.objectID := by
  obtain ⟨id, tm, xd, yd, xs, ys, d1, d2, dv, ya⟩ := entry
  cases d1 <;> cases d2 <;> cases dv <;> cases ya <;>
    simp [indicate_object, deref, bind, Except.bind, pure, Except.pure] at h
  rw [← h]

theorem indicate_loop_ok (m : Libm R) (env : Env R) (x_mgrs y_mgrs : Int) (orientation : R)
    (poc : List PerceivedObject) (stack : List (Object R))
    (h : ∀ entry ∈ poc, entry.hasOptionalFields = true) :
    ∃ objects, indicate_loop m env x_mgrs y_mgrs orientation poc stack
        = Except.ok (stack ++ objects) ∧
      List.Forall₂
        (fun entry object =>
          indicate_object m env x_mgrs y_mgrs orientation entry = Except.ok object)
        poc objects := by
  induction poc generalizing stack with
  | nil => exact ⟨[], by simp [indicate_loop], List.Forall₂.nil⟩
  | cons entry rest ih =>
    obtain ⟨object, hobject⟩ := indicate_object_ok m env x_mgrs y_mgrs orientation entry
      (h entry (List.mem_cons_self _ _))
    obtain ⟨objects, hloop, hall⟩ := ih (stack ++ [object])
      (fun e he => h e (List.mem_cons_of_mem _ he))
    refine ⟨object :: objects, ?_, List.Forall₂.cons hobject hall⟩
    simp [indicate_loop, hobject, hloop, bind, Except.bind]

/-- C8, the failing input. For the message `sampleCpm`, whose two entries carry
the identifiers 7 and 8, `indicate` completes and both received objects carry
the `objectID` of a default-constructed object, whatever that is: the loop
never assigns `object.objectID`. -/
theorem indicate_does_not_copy_objectID (m : Libm R) (env : Env R) (app : CpmApplication R) :
    ∃ r, app.indicate m { env with mgrs := fun _ _ => some (1000, 2000) } (some sampleCpm)
        = Except.ok r ∧
      r.app.receivedObjectsStack.map (fun o => o.objectID)
        = [env.newObject.objectID, env.newObject.objectID] ∧
      sampleCpm.cpm.cpmParameters.perceivedObjectContainer.map
          (fun poc => poc.map (fun entry => entry.objectID)) = some [7, 8] := by
  refine ⟨_, rfl, ?_, rfl⟩
  simp [indicate_object, sampleEntry]

/-- C9, counterexample. The message that `send` builds from the empty stack of
`sampleApp` has no perceived-object list; `indicate` decodes it, clears the
received collection and returns without a call of `publishObjects`. -/
theorem indicate_without_list_publishes_nothing :
    (sampleApp.send realLibm sampleEnv).message.cpm.cpmParameters.perceivedObjectContainer
        = none ∧
      ∃ r, sampleApp.indicate realLibm sampleEnv (some (sampleApp.send realLibm sampleEnv).message)
          = Except.ok r ∧
        r.published = [] ∧ r.app.receivedObjectsStack = [] := by
  rw [send_message_eq]
  exact ⟨rfl, _, rfl, rfl, rfl⟩

theorem indicate_list_present (m : Libm R) (env : Env R)
    (app : CpmApplication R) (message : Cpm) (grid : Int × Int) (sdc : StationDataContainer)
    (poc : List PerceivedObject)
    (hgrid : env.mgrs
        ((message.cpm.cpmParameters.managementContainer.referencePosition.latitude : R) / 1.0e7)
        ((message.cpm.cpmParameters.managementContainer.referencePosition.longitude : R) / 1.0e7)
      = some grid)
    (hsdc : message.cpm.cpmParameters.stationDataContainer = some sdc)
    (hpoc : message.cpm.cpmParameters.perceivedObjectContainer = some poc)
    (hall : ∀ entry ∈ poc, entry.hasOptionalFields = true) :
    ∃ stack, app.indicate m env (some message)
        = Except.ok { app := { app with receivedObjectsStack := stack }
                      published := [stack] } ∧
      List.Forall₂
        (fun entry object =>
          indicate_object m env grid.1 grid.2
            (indicate_orientation m sdc.originatingVehicleContainer.heading.headingValue)
            entry = Except.ok object)
        poc stack := by
  obtain ⟨objects, hloop, hforall⟩ := indicate_loop_ok m env grid.1 grid.2
    (indicate_orientation m sdc.originatingVehicleContainer.heading.headingValue) poc [] hall
  refine ⟨objects, ?_, hforall⟩
  simp only [List.nil_append] at hloop
  simp [CpmApplication.indicate, hgrid, hsdc, hpoc, hloop, deref, bind, Except.bind, pure,
    Except.pure]

theorem indicate_list_absent (m : Libm R) (env : Env R)
    (app : CpmApplication R) (message : Cpm) (grid : Int × Int) (sdc : StationDataContainer)
    (hgrid : env.mgrs
        ((message.cpm.cpmParameters.managementContainer.referencePosition.latitude : R) / 1.0e7)
        ((message.cpm.cpmParameters.managementContainer.referencePosition.longitude : R) / 1.0e7)
      = some grid)
    (hsdc : message.cpm.cpmParameters.stationDataContainer = some sdc)
    (hpoc : message.cpm.cpmParameters.perceivedObjectContainer = none) :
    app.indicate m env (some message)
      = Except.ok { app := { app with receivedObjectsStack := [] }, published := [] } := by
  simp [CpmApplication.indicate, hgrid, hsdc, hpoc, deref, bind, Except.bind, pure,
    Except.pure]

/-- C9, amended. For a decoded CPM whose reference position projects to the grid
and whose station data container is present: when the perceived-object list is
present and each entry has its optional dimension and yaw fields,
`publishObjects` is called exactly once, with the received collection that has
just been replaced by the objects decoded from the entries, in order; when the
list is absent the received collection is emptied and `publishObjects` is not
called. -/
theorem indicate_publishes_when_list_present (m : Libm R) (env : Env R)
    (app : CpmApplication R) (message : Cpm) (grid : Int × Int) (sdc : StationDataContainer)
    (hgrid : env.mgrs
        ((message.cpm.cpmParameters.managementContainer.referencePosition.latitude : R) / 1.0e7)
        ((message.cpm.cpmParameters.managementContainer.referencePosition.longitude : R) / 1.0e7)
      = some grid)
    (hsdc : message.cpm.cpmParameters.stationDataContainer = some sdc) :
    (∀ poc, message.cpm.cpmParameters.perceivedObjectContainer = some poc →
        (∀ entry ∈ poc, entry.hasOptionalFields = true) →
        ∃ stack, app.indicate m env (some message)
            = Except.ok { app := { app with receivedObjectsStack := stack }
                          published := [stack] } ∧
          List.Forall₂
            (fun entry object =>
              indicate_object m env grid.1 grid.2
                (indicate_orientation m sdc.originatingVehicleContainer.heading.headingValue)
                entry = Except.ok object)
            poc stack) ∧
      (message.cpm.cpmParameters.perceivedObjectContainer = none →
        app.indicate m env (some message)
          = Except.ok { app := { app with receivedObjectsStack := [] }, published := [] }) := 
  ⟨fun poc hpoc hall => indicate_list_present m env app message grid sdc poc hgrid hsdc hpoc hall,
    fun hpoc => indicate_list_absent m env app message grid sdc hgrid hsdc hpoc⟩

/-- C9, instance of the amended statement: `sampleCpm` received by `sampleApp`:
the one call of `publishObjects` carries the two decoded objects. -/
theorem indicate_publishes_when_list_present_witness :
    ∃ stack, sampleApp.indicate realLibm sampleEnv (some sampleCpm)
        = Except.ok { app := { sampleApp with receivedObjectsStack := stack }
                      published := [stack] } ∧
      stack.length = 2 := by
  obtain ⟨stack, h1, h2⟩ :=
    (indicate_publishes_when_list_present realLibm sampleEnv sampleApp sampleCpm (1000, 2000)
      { present := StationDataContainer_PR.originatingVehicleContainer
        originatingVehicleContainer :=
          { heading := { headingValue := 900, headingConfidence := 1 }
            speed := { speedValue := 0, speedConfidence := 1 } } }
      rfl rfl).1 [sampleEntry 7, sampleEntry 8] rfl (by decide)
  exact ⟨stack, h1, by simpa using h2.length_eq.symm⟩

end v2x

namespace v2x

/-! ## Round trip -/

theorem updateObjectsStack_ego {R : Type} [LinearOrderedField R] [FloorRing R] (m : Libm R)
    (env : Env R) (app : CpmApplication R) (msg : DynamicObjectArray R) :
    (app.updateObjectsStack m env msg).ego_x_ = app.ego_x_ ∧
      (app.updateObjectsStack m env msg).ego_y_ = app.ego_y_ ∧
      (app.updateObjectsStack m env msg).ego_lat_ = app.ego_lat_ ∧
      (app.updateObjectsStack m env msg).ego_lon_ = app.ego_lon_ ∧
      (app.updateObjectsStack m env msg).ego_altitude_ = app.ego_altitude_ ∧
      (app.updateObjectsStack m env msg).ego_heading_ = app.ego_heading_ ∧
      (app.updateObjectsStack m env msg).generationDeltaTime_ = app.generationDeltaTime_ := by
  unfold CpmApplication.updateObjectsStack
  dsimp only
  split
  · exact ⟨rfl, rfl, rfl, rfl, rfl, rfl, rfl⟩
  · split <;> exact ⟨rfl, rfl, rfl, rfl, rfl, rfl, rfl⟩

theorem send_headingValue_zero : send_headingValue realLibm 0 = 900 := by
  have hpi1 := Real.pi_gt_d4
  have hpi2 := Real.pi_lt_d4
  have hpos : (0 : ℝ) < Real.pi := Real.pi_pos
  have hx1 : (90 : ℝ) < (1.5708 - 0) * 180 / Real.pi := by
    rw [lt_div_iff₀ hpos]
    norm_num
    linarith
  have hx2 : (1.5708 - 0) * 180 / Real.pi < (91 : ℝ) := by
    rw [div_lt_iff₀ hpos]
    norm_num
    linarith
  have hf : fmod ((1.5708 - 0) * 180 / Real.pi) (360.0 : ℝ)
      = (1.5708 - 0) * 180 / Real.pi := by
    apply fmod_360 <;> linarith
  have ht : toInt ((1.5708 - 0) * 180 / Real.pi : ℝ) = 90 := by
    rw [toInt_of_nonneg (by linarith), Int.floor_eq_iff]
    constructor
    · push_cast
      linarith
    · push_cast
      linarith
  simp only [send_headingValue, realLibm]
  rw [hf, ht]
  norm_num

theorem indicate_orientation_900 :
    0 < indicate_orientation realLibm 900 ∧ indicate_orientation realLibm 900 < 0.00005 := by
  have hpi1 := Real.pi_gt_d4
  have hpi2 := Real.pi_lt_d4
  simp only [indicate_orientation, realLibm]
  constructor
  · push_cast
    linarith
  · push_cast
    linarith

theorem cos_small {t : ℝ} (h0 : 0 < t) (h1 : t < 0.00005) :
    |1000 + (Real.cos t * (1000 / 100.0) - Real.sin t * (0 / 100.0)) - 1010| ≤ 0.01 := by
  have hc1 := Real.one_sub_sq_div_two_le_cos (x := t)
  have hc2 := Real.cos_le_one t
  have ht2 : t ^ 2 ≤ 0.00005 ^ 2 := by
    exact pow_le_pow_left₀ h0.le h1.le 2
  rw [abs_le]
  constructor
  · norm_num at ht2 ⊢
    linarith
  · norm_num at ht2 ⊢
    linarith

theorem sin_small {t : ℝ} (h0 : 0 < t) (h1 : t < 0.00005) :
    |2000 + (Real.sin t * (1000 / 100.0) + Real.cos t * (0 / 100.0)) - 2000| ≤ 0.01 := by
  have hs1 := Real.sin_le h0.le
  have hs2 := Real.sin_nonneg_of_nonneg_of_le_pi h0.le (by linarith [Real.pi_gt_three])
  rw [abs_le]
  constructor
  · norm_num
    linarith
  · norm_num
    linarith

theorem round_trip_object (env : Env ℝ) (app : CpmApplication ℝ) (obj : DynamicObject ℝ)
    (stamp : Time) (hx : app.ego_x_ = 1000) (hy : app.ego_y_ = 2000)
    (hh : app.ego_heading_ = 0) (hpx : obj.position.x = 1010) (hpy : obj.position.y = 2000)
    (hyaw : (env.getRPY obj.orientation).yaw = 0) :
    (updateObjectsStack_object realLibm env app stamp 0 obj).xDistance = 1000 ∧
      (updateObjectsStack_object realLibm env app stamp 0 obj).yDistance = 0 ∧
      (updateObjectsStack_object realLibm env app stamp 0 obj).yawAngle = 0 := by
  have h1000 : lround (1000 : ℝ) = 1000 := by
    have := lround_intCast (R := ℝ) 1000
    norm_num at this ⊢
    exact this
  have h0 : lround (0 : ℝ) = 0 := by
    have := lround_intCast (R := ℝ) 0
    norm_num at this ⊢
    exact this
  have hyaw1 : (env.getRPY ⟨obj.orientation.x, obj.orientation.y, obj.orientation.z,
      obj.orientation.w⟩).yaw = 0 := hyaw
  refine ⟨?_, ?_, ?_⟩
  · simp only [updateObjectsStack_object, realLibm, hx, hy, hh, hpx, hpy, neg_zero,
      Real.cos_zero, Real.sin_zero]
    norm_num
    exact h1000
  · simp only [updateObjectsStack_object, realLibm, hx, hy, hh, hpx, hpy, neg_zero,
      Real.cos_zero, Real.sin_zero]
    norm_num
    exact h0
  · simp only [updateObjectsStack_object, hyaw1, updateObjectsStack_yawAngle, lt_irrefl,
      if_false]
    norm_num
    exact h0

/-- C10. Round trip on the witness of the specification: ego grid position
(1000, 2000), ego heading 0 rad, one object at world position (1010, 2000)
whose yaw is 0. `updateObjectsStack` stores `xDistance = 1000`,
`yDistance = 0` and `yawAngle = 0`, `send` writes `headingValue = 900`, and
`indicate`, run by any receiver that projects the sender to grid position
(1000, 2000), completes with exactly one received object, whose world position
is within 0.01 m of (1010, 2000) in each coordinate and whose yaw is within
0.05 degrees of 0. -/
theorem encode_decode_round_trip (env : Env ℝ) (app rx : CpmApplication ℝ)
    (obj : DynamicObject ℝ) (stamp : Time)
    (hidle : app.sending_ = false) (hx : app.ego_x_ = 1000) (hy : app.ego_y_ = 2000)
    (hh : app.ego_heading_ = 0) (hpx : obj.position.x = 1010) (hpy : obj.position.y = 2000)
    (hyaw : (env.getRPY obj.orientation).yaw = 0)
    (hgrid : env.mgrs
        ((((app.updateObjectsStack realLibm env { stamp := stamp, objects := [obj] }).send
          realLibm env).message.cpm.cpmParameters.managementContainer.referencePosition.latitude
            : ℝ) / 1.0e7)
        ((((app.updateObjectsStack realLibm env { stamp := stamp, objects := [obj] }).send
          realLibm env).message.cpm.cpmParameters.managementContainer.referencePosition.longitude
            : ℝ) / 1.0e7)
      = some (1000, 2000)) :
    ∃ (object decoded : Object ℝ) (sdc : StationDataContainer),
      (app.updateObjectsStack realLibm env { stamp := stamp, objects := [obj] }).objectsStack
        = [object] ∧
      object.xDistance = 1000 ∧ object.yDistance = 0 ∧ object.yawAngle = 0 ∧
      ((app.updateObjectsStack realLibm env { stamp := stamp, objects := [obj] }).send
          realLibm env).message.cpm.cpmParameters.stationDataContainer = some sdc ∧
      sdc.originatingVehicleContainer.heading.headingValue = 900 ∧
      rx.indicate realLibm env
          (some ((app.updateObjectsStack realLibm env { stamp := stamp, objects := [obj] }).send
            realLibm env).message)
        = Except.ok { app := { rx with receivedObjectsStack := [decoded] }
                      published := [[decoded]] } ∧
      |decoded.position_x - 1010| ≤ 0.01 ∧
      |decoded.position_y - 2000| ≤ 0.01 ∧
      |indicate_yaw_radian realLibm decoded.yawAngle * 180 / Real.pi - 0| ≤ 0.05 := by
  have hstack := updateObjectsStack_objectsStack realLibm env app
    { stamp := stamp, objects := [obj] } hidle
  simp only [List.enumFrom, List.map, Nat.cast_zero] at hstack
  obtain ⟨hxd, hyd, hya⟩ := round_trip_object env app obj stamp hx hy hh hpx hpy hyaw
  have hego := (updateObjectsStack_ego realLibm env app
    { stamp := stamp, objects := [obj] }).2.2.2.2.2.1
  have hsdc : ((app.updateObjectsStack realLibm env { stamp := stamp, objects := [obj] }).send
      realLibm env).message.cpm.cpmParameters.stationDataContainer
      = some { present := StationDataContainer_PR.originatingVehicleContainer
               originatingVehicleContainer :=
                 { heading := { headingValue := 900, headingConfidence := 1 }
                   speed := { speedValue := 0, speedConfidence := 1 } } } := by
    rw [send_message_eq]
    simp only [send_message, hego, hh, send_headingValue_zero]
  have hpoc : ((app.updateObjectsStack realLibm env { stamp := stamp, objects := [obj] }).send
      realLibm env).message.cpm.cpmParameters.perceivedObjectContainer
      = some [send_perceivedObject (updateObjectsStack_object realLibm env app stamp 0 obj)] := by
    rw [send_message_eq]
    simp [send_message, hstack]
  obtain ⟨stack, hind, hall⟩ := indicate_list_present realLibm env rx _ (1000, 2000) _ _
    hgrid hsdc hpoc (by simp [PerceivedObject.hasOptionalFields, send_perceivedObject])
  obtain ⟨rest, hdec, hrest⟩ : ∃ decoded, indicate_object realLibm env 1000 2000
      (indicate_orientation realLibm 900)
      (send_perceivedObject (updateObjectsStack_object realLibm env app stamp 0 obj))
        = Except.ok decoded ∧ stack = [decoded] := by
    cases hall with
    | cons h1 h2 =>
      cases h2
      exact ⟨_, h1, rfl⟩
  subst hrest
  obtain ⟨ho1, ho2⟩ := indicate_orientation_900
  have hpos : (0 : ℝ) < Real.pi := Real.pi_pos
  simp only [indicate_object, send_perceivedObject, deref, bind, Except.bind, pure,
    Except.pure, hxd, hyd, hya, Except.ok.injEq] at hdec
  refine ⟨_, rest, _, hstack, hxd, hyd, hya, hsdc, rfl, hind, ?_, ?_, ?_⟩
  · rw [← hdec]
    simpa [realLibm] using cos_small ho1 ho2
  · rw [← hdec]
    simpa [realLibm] using sin_small ho1 ho2
  · rw [← hdec]
    norm_num [indicate_yaw_radian]

theorem sampleObject_position :
    sampleObject.position.x = 1010 ∧ sampleObject.position.y = 2000 :=
  ⟨rfl, rfl⟩

/-- C10, instance: the collaborators `sampleEnv`, the sender and receiver
`sampleApp` and the object `sampleObject`. -/
theorem encode_decode_round_trip_witness :
    sampleApp.sending_ = false ∧ sampleApp.ego_x_ = 1000 ∧ sampleApp.ego_y_ = 2000 ∧
      sampleApp.ego_heading_ = 0 ∧
      ∃ decoded : Object ℝ,
        sampleApp.indicate realLibm sampleEnv
            (some ((sampleApp.updateObjectsStack realLibm sampleEnv sampleBatch).send
              realLibm sampleEnv).message)
          = Except.ok { app := { sampleApp with receivedObjectsStack := [decoded] }
                        published := [[decoded]] } ∧
        |decoded.position_x - 1010| ≤ 0.01 ∧ |decoded.position_y - 2000| ≤ 0.01 := by
  refine ⟨rfl, rfl, rfl, rfl, ?_⟩
  obtain ⟨-, decoded, -, -, -, -, -, -, -, h1, h2, h3, -⟩ :=
    encode_decode_round_trip sampleEnv sampleApp sampleApp sampleObject sampleBatch.stamp
      rfl rfl rfl rfl sampleObject_position.1 sampleObject_position.2 sampleObject_yaw
      rfl
  exact ⟨decoded, h1, h2, h3⟩

end v2x

namespace v2x

variable {R : Type} [LinearOrderedField R] [FloorRing R]

/-! ## Empty snapshot, send outcome, undecodable packets -/

/-- C13. `send` reports the failure `[SEND] CPM application data request failed`
exactly when the confirm of the gateway for the composed message is not
accepted, and returns normally exactly when it is accepted. -/
theorem send_fails_iff_not_accepted (m : Libm R) (env : Env R) (app : CpmApplication R) :
    ((app.send m env).failure = some "[SEND] CPM application data request failed" ↔
        env.request (app.send m env).message = false) ∧
      ((app.send m env).failure = none ↔ env.request (app.send m env).message = true) ∧
      ((app.send m env).failure = none ∨
        (app.send m env).failure = some "[SEND] CPM application data request failed") := by
  rw [send_message_eq]
  cases h : env.request (send_message m env { app with sending_ := true }) <;>
    simp [CpmApplication.send, h]

/-! ## Heading periodicity -/

theorem send_headingValue_next_turn :
    send_headingValue realLibm (1.5608 + 2 * Real.pi) = -3590 := by
  have hpi1 := Real.pi_gt_d2
  have hpi2 := Real.pi_lt_d2
  have hpos : (0 : ℝ) < Real.pi := Real.pi_pos
  have hx : (1.5708 - (1.5608 + 2 * Real.pi)) * 180 / Real.pi
      = (1.5708 - 1.5608) * 180 / Real.pi - 360 := by
    field_simp
    ring
  have hx1 : (0 : ℝ) < (1.5708 - 1.5608) * 180 / Real.pi := by
    apply div_pos _ hpos
    norm_num
  have hx2 : (1.5708 - 1.5608) * 180 / Real.pi < (1 : ℝ) := by
    rw [div_lt_iff₀ hpos]
    norm_num
    linarith
  have hf : fmod ((1.5708 - 1.5608) * 180 / Real.pi - 360) (360.0 : ℝ)
      = (1.5708 - 1.5608) * 180 / Real.pi - 360 := by
    apply fmod_360 <;> linarith
  have ht : toInt ((1.5708 - 1.5608) * 180 / Real.pi - 360 : ℝ) = -359 := by
    rw [toInt_of_neg (by linarith), Int.ceil_eq_iff]
    constructor
    · push_cast
      linarith
    · push_cast
      linarith
  simp only [send_headingValue, realLibm]
  rw [hx, hf, ht]
  norm_num

/-- C12, the failing input. The heading 1.5608 rad is encoded as 0 and the
heading 1.5608 + 2 pi as -3590: `std::fmod` returns -359.43 for the second and
the cast truncates it toward zero. The two values are not congruent modulo
3600. -/
theorem headingValue_not_periodic :
    send_headingValue realLibm 1.5608 = 0 ∧
      send_headingValue realLibm (1.5608 + 2 * Real.pi) = -3590 ∧
      ¬ (send_headingValue realLibm 1.5608
          ≡ send_headingValue realLibm (1.5608 + 2 * Real.pi) [ZMOD 3600]) := by
  refine ⟨send_headingValue_near_base, send_headingValue_next_turn, ?_⟩
  rw [send_headingValue_near_base, send_headingValue_next_turn]
  decide

end v2x

namespace v2x

variable {R : Type} [LinearOrderedField R]

/-! ## Decoding: undecodable packets, replacement, optional fields -/

/-- C14. For a packet that the visitor does not interpret as a CPM, `indicate`
returns normally with the state unchanged (the received collection included)
and without a call of `publishObjects`. -/
theorem indicate_not_decodable (m : Libm R) (env : Env R) (app : CpmApplication R) :
    app.indicate m env none = Except.ok { app := app, published := [] } :=
  rfl

theorem indicate_loop_inv (m : Libm R) (env : Env R) (x_mgrs y_mgrs : Int) (orientation : R)
    (poc : List PerceivedObject) (stack out : List (Object R))
    (h : indicate_loop m env x_mgrs y_mgrs orientation poc stack = Except.ok out) :
    ∃ objects, out = stack ++ objects ∧
      List.Forall₂
        (fun entry object =>
          indicate_object m env x_mgrs y_mgrs orientation entry = Except.ok object)
        poc objects := by
  induction poc generalizing stack with
  | nil =>
    simp only [indicate_loop, Except.ok.injEq] at h
    exact ⟨[], by simp [h], List.Forall₂.nil⟩
  | cons entry rest ih =>
    cases hobject : indicate_object m env x_mgrs y_mgrs orientation entry with
    | error e => simp [indicate_loop, hobject, bind, Except.bind] at h
    | ok object =>
      simp only [indicate_loop, hobject, bind, Except.bind] at h
      obtain ⟨objects, hout, hall⟩ := ih (stack ++ [object]) h
      exact ⟨object :: objects, by simp [hout], List.Forall₂.cons hobject hall⟩

theorem indicate_inv (m : Libm R) (env : Env R) (app : CpmApplication R) (message : Cpm)
    (poc : List PerceivedObject) (r : IndicateResult R)
    (hpoc : message.cpm.cpmParameters.perceivedObjectContainer = some poc)
    (h : app.indicate m env (some message) = Except.ok r) :
    ∃ (grid : Int × Int) (sdc : StationDataContainer),
      env.mgrs
          ((message.cpm.cpmParameters.managementContainer.referencePosition.latitude : R) / 1.0e7)
          ((message.cpm.cpmParameters.managementContainer.referencePosition.longitude : R) / 1.0e7)
        = some grid ∧
      message.cpm.cpmParameters.stationDataContainer = some sdc ∧
      r = { app := { app with receivedObjectsStack := r.app.receivedObjectsStack }
            published := [r.app.receivedObjectsStack] } ∧
      List.Forall₂
        (fun entry object =>
          indicate_object m env grid.1 grid.2
            (indicate_orientation m sdc.originatingVehicleContainer.heading.headingValue)
            entry = Except.ok object)
        poc r.app.receivedObjectsStack := by
  cases hgrid : env.mgrs
      ((message.cpm.cpmParameters.managementContainer.referencePosition.latitude : R) / 1.0e7)
      ((message.cpm.cpmParameters.managementContainer.referencePosition.longitude : R) / 1.0e7) with
  | none => simp [CpmApplication.indicate, hgrid, bind, Except.bind] at h
  | some grid =>
    cases hsdc : message.cpm.cpmParameters.stationDataContainer with
    | none => simp [CpmApplication.indicate, hgrid, hsdc, deref, bind, Except.bind] at h
    | some sdc =>
      cases hloop : indicate_loop m env grid.1 grid.2
          (indicate_orientation m sdc.originatingVehicleContainer.heading.headingValue) poc [] with
      | error e =>
        simp [CpmApplication.indicate, hgrid, hsdc, hpoc, hloop, deref, bind, Except.bind] at h
      | ok stack =>
        simp only [CpmApplication.indicate, hgrid, hsdc, hpoc, hloop, deref, bind, Except.bind,
          pure, Except.pure, Except.ok.injEq] at h
        obtain ⟨objects, hout, hall⟩ := indicate_loop_inv m env _ _ _ poc [] stack hloop
        simp only [List.nil_append] at hout
        subst hout
        subst h
        exact ⟨grid, sdc, rfl, rfl, rfl, hall⟩

/-- C15. For a decoded CPM that carries a perceived-object list of `k` entries
and for every prior state of the receiver: whenever `indicate` completes, the
received collection has exactly `k` objects and the object at each position is
the one decoded from the wire entry at that position, so nothing of the prior
collection remains; and `indicate` does complete when the reference position
projects to the grid, the station data container is present and every entry has
its optional fields. -/
theorem indicate_replaces_received (m : Libm R) (env : Env R) (app : CpmApplication R)
    (message : Cpm) (poc : List PerceivedObject)
    (hpoc : message.cpm.cpmParameters.perceivedObjectContainer = some poc) :
    (∀ r, app.indicate m env (some message) = Except.ok r →
        r.app.receivedObjectsStack.length = poc.length ∧
        ∃ (grid : Int × Int) (sdc : StationDataContainer),
          env.mgrs
              ((message.cpm.cpmParameters.managementContainer.referencePosition.latitude : R)
                / 1.0e7)
              ((message.cpm.cpmParameters.managementContainer.referencePosition.longitude : R)
                / 1.0e7)
            = some grid ∧
          message.cpm.cpmParameters.stationDataContainer = some sdc ∧
          List.Forall₂
            (fun entry object =>
              indicate_object m env grid.1 grid.2
                (indicate_orientation m sdc.originatingVehicleContainer.heading.headingValue)
                entry = Except.ok object)
            poc r.app.receivedObjectsStack) ∧
      (∀ (grid : Int × Int) (sdc : StationDataContainer),
        env.mgrs
            ((message.cpm.cpmParameters.managementContainer.referencePosition.latitude : R)
              / 1.0e7)
            ((message.cpm.cpmParameters.managementContainer.referencePosition.longitude : R)
              / 1.0e7)
          = some grid →
        message.cpm.cpmParameters.stationDataContainer = some sdc →
        (∀ entry ∈ poc, entry.hasOptionalFields = true) →
        ∃ r, app.indicate m env (some message) = Except.ok r) := by
  constructor
  · intro r hr
    obtain ⟨grid, sdc, hgrid, hsdc, -, hall⟩ := indicate_inv m env app message poc r hpoc hr
    exact ⟨hall.length_eq.symm, grid, sdc, hgrid, hsdc, hall⟩
  · intro grid sdc hgrid hsdc hall
    obtain ⟨stack, hind, -⟩ :=
      indicate_list_present m env app message grid sdc poc hgrid hsdc hpoc hall
    exact ⟨_, hind⟩

/-- C15, instance: `sampleCpm`, with two entries, received by a station that
already holds one object. -/
theorem indicate_replaces_received_witness :
    sampleCpm.cpm.cpmParameters.perceivedObjectContainer = some [sampleEntry 7, sampleEntry 8] ∧
      ∃ r, ({ sampleApp with receivedObjectsStack := [sampleEnv.newObject] }
            : CpmApplication ℝ).indicate realLibm sampleEnv (some sampleCpm) = Except.ok r ∧
        r.app.receivedObjectsStack.length = 2 := by
  refine ⟨rfl, ?_⟩
  obtain ⟨h1, h2⟩ := indicate_replaces_received realLibm sampleEnv
    { sampleApp with receivedObjectsStack := [sampleEnv.newObject] } sampleCpm
    [sampleEntry 7, sampleEntry 8] rfl
  obtain ⟨r, hr⟩ := h2 (1000, 2000) _ rfl rfl (by decide)
  exact ⟨r, hr, (h1 r hr).1⟩

/-- C20, the failing inputs. The message `sampleCpmWithoutStationData` decodes as
a CPM and has no station data container: line 99 dereferences the null pointer
and `indicate` does not complete. The message `sampleCpmWithoutYaw` has its
station data container and one entry without yaw angle: line 127 dereferences
the null pointer. -/
theorem indicate_faults_on_absent_optional (m : Libm R) (env : Env R)
    (app : CpmApplication R) :
    sampleCpmWithoutStationData.cpm.cpmParameters.stationDataContainer = none ∧
      app.indicate m { env with mgrs := fun _ _ => some (1000, 2000) }
          (some sampleCpmWithoutStationData)
        = Except.error Fault.nullDeref ∧
      app.indicate m { env with mgrs := fun _ _ => some (1000, 2000) }
          (some sampleCpmWithoutYaw)
        = Except.error Fault.nullDeref :=
  ⟨rfl, rfl, rfl⟩

end v2x

namespace v2x

/-! ## Axis swap -/

theorem indicate_object_send_shape {R : Type} [LinearOrderedField R] (m : Libm R) (env : Env R) (x_mgrs y_mgrs : Int)
    (orientation : R) (object decoded : Object R)
    (h : indicate_object m env x_mgrs y_mgrs orientation (send_perceivedObject object)
      = Except.ok decoded) :
    decoded.shape_x = object.shape_x ∧ decoded.shape_y = object.shape_y ∧
      decoded.shape_z = object.shape_z := by
  simp only [indicate_object, send_perceivedObject, deref, bind, Except.bind, pure,
    Except.pure, Except.ok.injEq] at h
  subst h
  exact ⟨rfl, rfl, rfl⟩

theorem send_perceivedObject_hasOptionalFields {R : Type} (objects : List (Object R)) :
    ∀ entry ∈ objects.map send_perceivedObject, entry.hasOptionalFields = true := by
  intro entry hentry
  obtain ⟨object, -, rfl⟩ := List.mem_map.mp hentry
  rfl

end v2x

namespace v2x

variable {R : Type} [LinearOrderedField R] [FloorRing R]

theorem send_message_stationDataContainer (m : Libm R) (env : Env R) (app : CpmApplication R) :
    (app.send m env).message.cpm.cpmParameters.stationDataContainer
      = some { present := StationDataContainer_PR.originatingVehicleContainer
               originatingVehicleContainer :=
                 { heading := { headingValue := send_headingValue m app.ego_heading_
                                headingConfidence := 1 }
                   speed := { speedValue := 0, speedConfidence := 1 } } } := by
  rw [send_message_eq]
  rfl

theorem send_message_perceivedObjectContainer (m : Libm R) (env : Env R)
    (app : CpmApplication R) :
    (app.send m env).message.cpm.cpmParameters.perceivedObjectContainer
      = if app.objectsStack.length > 0 then some (app.objectsStack.map send_perceivedObject)
        else none := by
  rw [send_message_eq]
  rfl

/-- C16. `send` writes `shape_y` to `planarObjectDimension1`, `shape_x` to
`planarObjectDimension2` and `shape_z` to `verticalObjectDimension` of the wire
entry of every object of the stack, and `indicate`, when the reference position
of the message projects to the grid, completes with one received object per
object of the stack, in order, whose `shape_x`, `shape_y`, `shape_z` equal those
of the object sent. -/
theorem shape_axis_swap_round_trip (m : Libm R) (env : Env R) (app rx : CpmApplication R)
    (grid : Int × Int)
    (hgrid : env.mgrs
        (((app.send m env).message.cpm.cpmParameters.managementContainer.referencePosition.latitude
          : R) / 1.0e7)
        (((app.send m env).message.cpm.cpmParameters.managementContainer.referencePosition.longitude
          : R) / 1.0e7)
      = some grid) :
    List.Forall₂
        (fun object entry =>
          entry.planarObjectDimension1 = some { value := object.shape_y, confidence := 1 } ∧
          entry.planarObjectDimension2 = some { value := object.shape_x, confidence := 1 } ∧
          entry.verticalObjectDimension = some { value := object.shape_z, confidence := 1 })
        app.objectsStack
        ((app.send m env).message.cpm.cpmParameters.perceivedObjectContainer.getD []) ∧
      ∃ r, rx.indicate m env (some (app.send m env).message) = Except.ok r ∧
        List.Forall₂
          (fun object decoded =>
            decoded.shape_x = object.shape_x ∧ decoded.shape_y = object.shape_y ∧
              decoded.shape_z = object.shape_z)
          app.objectsStack r.app.receivedObjectsStack := by
  have hsdc := send_message_stationDataContainer m env app
  have hpoc := send_message_perceivedObjectContainer m env app
  cases hstack : app.objectsStack with
  | nil =>
    simp only [hstack, List.length_nil, gt_iff_lt, lt_irrefl, if_false] at hpoc
    have hind := indicate_list_absent m env rx _ grid _ hgrid hsdc hpoc
    exact ⟨by simp [hpoc], _, hind, List.Forall₂.nil⟩
  | cons object rest =>
    have hlen : app.objectsStack.length > 0 := by simp [hstack]
    simp only [hlen, if_true] at hpoc
    obtain ⟨stack, hind, hall⟩ := indicate_list_present m env rx _ grid _ _ hgrid hsdc hpoc
      (send_perceivedObject_hasOptionalFields app.objectsStack)
    rw [List.forall₂_map_left_iff] at hall
    rw [← hstack]
    constructor
    · rw [hpoc, Option.getD_some, List.forall₂_map_right_iff]
      exact List.forall₂_same.mpr (fun o _ => ⟨rfl, rfl, rfl⟩)
    · exact ⟨_, hind, hall.imp (fun o d h => indicate_object_send_shape m env _ _ _ o d h)⟩

/-- C16, instance: the state `busyApp`, which holds one object, sends and
`sampleApp` receives. -/
theorem shape_axis_swap_round_trip_witness :
    ∃ r, sampleApp.indicate realLibm sampleEnv (some (busyApp.send realLibm sampleEnv).message)
        = Except.ok r ∧
      List.Forall₂
        (fun object decoded =>
          decoded.shape_x = object.shape_x ∧ decoded.shape_y = object.shape_y ∧
            decoded.shape_z = object.shape_z)
        busyApp.objectsStack r.app.receivedObjectsStack :=
  (shape_axis_swap_round_trip realLibm sampleEnv busyApp sampleApp (1000, 2000) rfl).2

/-! ## Skipped update -/

/-- C18, the failing input. In a state with `sending_` set and
`updating_objects_stack_` clear, the skipped `updateObjectsStack` returns with
`updating_objects_stack_` set: line 177 sets it before the test of line 179 and
the early return of line 181 skips the reset of line 228. Every other field
keeps its value. -/
theorem updateObjectsStack_skip_sets_updating_flag (m : Libm R) (env : Env R)
    (app : CpmApplication R) (msg : DynamicObjectArray R) :
    ({ app with sending_ := true, updating_objects_stack_ := false }
        : CpmApplication R).updating_objects_stack_ = false ∧
      (({ app with sending_ := true, updating_objects_stack_ := false }
        : CpmApplication R).updateObjectsStack m env msg).updating_objects_stack_ = true ∧
      ({ app with sending_ := true, updating_objects_stack_ := false }
        : CpmApplication R).updateObjectsStack m env msg
        = { app with sending_ := true, updating_objects_stack_ := true } := by
  simp [CpmApplication.updateObjectsStack]

end v2x

namespace v2x

variable {R : Type} [LinearOrderedField R] [FloorRing R]

/-! ## Scheduler -/

theorem send_cpm_interval (m : Libm R) (env : Env R) (app : CpmApplication R) :
    (app.send m env).app.cpm_interval_ = app.cpm_interval_ := by
  dsimp only [CpmApplication.send]
  split <;> rfl

theorem updateObjectsStack_cpm_interval (m : Libm R) (env : Env R) (app : CpmApplication R)
    (msg : DynamicObjectArray R) :
    (app.updateObjectsStack m env msg).cpm_interval_ = app.cpm_interval_ := by
  unfold CpmApplication.updateObjectsStack
  dsimp only
  split
  · rfl
  · split <;> rfl

/-- C17. With the runtime reduced to the triggers pending for this application:
the constructor leaves exactly one pending trigger, with delay 1000 ms, the
interval it sets; `set_interval d` leaves, from any state, exactly one pending
trigger with delay `d = cpm_interval_`; a tick taken in a state that satisfies
the invariant consumes the pending trigger and `on_timer` leaves exactly one
pending trigger with delay `cpm_interval_`, scheduled before `send` runs, so it
is pending also when `send` reports a failure; `updateObjectsStack` does not
change `cpm_interval_`. -/
theorem scheduler_invariant (m : Libm R) (env : Env R) (app : CpmApplication R)
    (rt : Runtime) :
    (SchedulerInvariant (CpmApplication.construct rt : CpmApplication R × Runtime).1
        (CpmApplication.construct rt : CpmApplication R × Runtime).2 ∧
      (CpmApplication.construct rt : CpmApplication R × Runtime).1.cpm_interval_ = 1000) ∧
    (∀ d : Nat, SchedulerInvariant (app.set_interval rt d).1 (app.set_interval rt d).2 ∧
      (app.set_interval rt d).1.cpm_interval_ = d) ∧
    (SchedulerInvariant app rt →
      ∃ (result : SendResult R) (rt1 : Runtime),
        Runtime.trigger m env app rt = some (result, rt1) ∧
        result = app.send m env ∧
        rt1 = app.schedule_timer { pending := [] } ∧
        SchedulerInvariant result.app rt1 ∧
        result.app.cpm_interval_ = app.cpm_interval_ ∧
        (env.request result.message = false →
          result.failure = some "[SEND] CPM application data request failed" ∧
          rt1.pending = [app.cpm_interval_])) ∧
    (∀ msg : DynamicObjectArray R,
      SchedulerInvariant app rt → SchedulerInvariant (app.updateObjectsStack m env msg) rt) := by
  refine ⟨⟨rfl, rfl⟩, fun d => ⟨rfl, rfl⟩, ?_, ?_⟩
  · intro hinv
    have hsend := send_cpm_interval m env app
    refine ⟨app.send m env, app.schedule_timer { pending := [] }, ?_, rfl, rfl, ?_, hsend, ?_⟩
    · unfold SchedulerInvariant at hinv
      simp [Runtime.trigger, hinv, CpmApplication.on_timer]
    · simp [SchedulerInvariant, hsend, CpmApplication.schedule_timer, Runtime.schedule]
    · intro hreq
      rw [send_message_eq] at hreq
      constructor
      · simp [CpmApplication.send, hreq]
      · simp [CpmApplication.schedule_timer, Runtime.schedule]
  · intro msg hinv
    unfold SchedulerInvariant at hinv ⊢
    rw [updateObjectsStack_cpm_interval, hinv]

/-- C17, instance: `sampleApp` with its one pending trigger of 1000 ms, and a
gateway that rejects: the tick reports the failure and one trigger of 1000 ms
is pending afterwards. -/
theorem scheduler_invariant_witness :
    SchedulerInvariant sampleApp { pending := [1000] } ∧
      ∃ (result : SendResult ℝ) (rt1 : Runtime),
        Runtime.trigger realLibm rejectingEnv sampleApp { pending := [1000] }
          = some (result, rt1) ∧
        result.failure = some "[SEND] CPM application data request failed" ∧
        rt1.pending = [1000] := by
  have hinv : SchedulerInvariant sampleApp { pending := [1000] } := rfl
  obtain ⟨result, rt1, h1, -, -, -, -, h2⟩ :=
    (scheduler_invariant realLibm rejectingEnv sampleApp { pending := [1000] }).2.2.1 hinv
  exact ⟨hinv, result, rt1, h1, h2 rfl⟩

/-! ## Relative and absolute frames -/

theorem abs_lround_sub_le (x : R) : |(lround x : R) - x| ≤ 1 / 2 := by
  unfold lround
  split
  · have h1 := Int.floor_le (x + 1 / 2)
    have h2 := Int.lt_floor_add_one (x + 1 / 2)
    rw [abs_le]
    constructor <;> linarith
  · have h1 := Int.le_ceil (x - 1 / 2)
    have h2 := Int.ceil_lt_add_one (x - 1 / 2)
    rw [abs_le]
    constructor <;> linarith

theorem rotate_error_le (c s e1 e2 : ℝ) (hcs : c ^ 2 + s ^ 2 = 1) (he1 : |e1| ≤ 1 / 2)
    (he2 : |e2| ≤ 1 / 2) : |c * e1 + s * e2| ≤ 1 := by
  have hc : |c| ≤ 1 := by
    rw [abs_le]
    constructor <;> nlinarith [sq_nonneg s, sq_nonneg (c + 1), sq_nonneg (c - 1)]
  have hs : |s| ≤ 1 := by
    rw [abs_le]
    constructor <;> nlinarith [sq_nonneg c, sq_nonneg (s + 1), sq_nonneg (s - 1)]
  calc |c * e1 + s * e2| ≤ |c * e1| + |s * e2| := abs_add _ _
    _ = |c| * |e1| + |s| * |e2| := by rw [abs_mul, abs_mul]
    _ ≤ 1 * (1 / 2) + 1 * (1 / 2) := by
        gcongr
    _ = 1 := by norm_num

theorem frame_round_trip_x (ex ey px py θ : ℝ) :
    |ex + (Real.cos θ
          * ((lround (((px - ex) * Real.cos (-θ) - (py - ey) * Real.sin (-θ)) * 100.0) : ℝ)
            / 100.0)
        - Real.sin θ
          * ((lround (((px - ex) * Real.sin (-θ) + (py - ey) * Real.cos (-θ)) * 100.0) : ℝ)
            / 100.0)) - px| ≤ 0.01 := by
  rw [Real.cos_neg, Real.sin_neg]
  have he1 := abs_lround_sub_le
    (((px - ex) * Real.cos θ - (py - ey) * -Real.sin θ) * 100.0 : ℝ)
  have he2 := abs_lround_sub_le
    (((px - ex) * -Real.sin θ + (py - ey) * Real.cos θ) * 100.0 : ℝ)
  have hcs : Real.cos θ ^ 2 + (-Real.sin θ) ^ 2 = 1 := by
    rw [neg_sq]
    exact Real.cos_sq_add_sin_sq θ
  have hcs1 := Real.cos_sq_add_sin_sq θ
  have hrot := rotate_error_le (Real.cos θ) (-Real.sin θ) _ _ hcs he1 he2
  have hkey : ex + (Real.cos θ
          * ((lround (((px - ex) * Real.cos θ - (py - ey) * -Real.sin θ) * 100.0) : ℝ)
            / 100.0)
        - Real.sin θ
          * ((lround (((px - ex) * -Real.sin θ + (py - ey) * Real.cos θ) * 100.0) : ℝ)
            / 100.0)) - px
      = (Real.cos θ
          * ((lround (((px - ex) * Real.cos θ - (py - ey) * -Real.sin θ) * 100.0) : ℝ)
            - ((px - ex) * Real.cos θ - (py - ey) * -Real.sin θ) * 100.0)
        + -Real.sin θ
          * ((lround (((px - ex) * -Real.sin θ + (py - ey) * Real.cos θ) * 100.0) : ℝ)
            - ((px - ex) * -Real.sin θ + (py - ey) * Real.cos θ) * 100.0)) / 100 := by
    norm_num
    linear_combination (px - ex) * hcs1
  rw [hkey, abs_div]
  rw [abs_of_pos (by norm_num : (0 : ℝ) < 100)]
  rw [div_le_iff₀ (by norm_num : (0 : ℝ) < 100)]
  norm_num at hrot ⊢
  exact hrot

theorem frame_round_trip_y (ex ey px py θ : ℝ) :
    |ey + (Real.sin θ
          * ((lround (((px - ex) * Real.cos (-θ) - (py - ey) * Real.sin (-θ)) * 100.0) : ℝ)
            / 100.0)
        + Real.cos θ
          * ((lround (((px - ex) * Real.sin (-θ) + (py - ey) * Real.cos (-θ)) * 100.0) : ℝ)
            / 100.0)) - py| ≤ 0.01 := by
  rw [Real.cos_neg, Real.sin_neg]
  have he1 := abs_lround_sub_le
    (((px - ex) * Real.cos θ - (py - ey) * -Real.sin θ) * 100.0 : ℝ)
  have he2 := abs_lround_sub_le
    (((px - ex) * -Real.sin θ + (py - ey) * Real.cos θ) * 100.0 : ℝ)
  have hcs : Real.sin θ ^ 2 + Real.cos θ ^ 2 = 1 := Real.sin_sq_add_cos_sq θ
  have hrot := rotate_error_le (Real.sin θ) (Real.cos θ) _ _ hcs he1 he2
  have hkey : ey + (Real.sin θ
          * ((lround (((px - ex) * Real.cos θ - (py - ey) * -Real.sin θ) * 100.0) : ℝ)
            / 100.0)
        + Real.cos θ
          * ((lround (((px - ex) * -Real.sin θ + (py - ey) * Real.cos θ) * 100.0) : ℝ)
            / 100.0)) - py
      = (Real.sin θ
          * ((lround (((px - ex) * Real.cos θ - (py - ey) * -Real.sin θ) * 100.0) : ℝ)
            - ((px - ex) * Real.cos θ - (py - ey) * -Real.sin θ) * 100.0)
        + Real.cos θ
          * ((lround (((px - ex) * -Real.sin θ + (py - ey) * Real.cos θ) * 100.0) : ℝ)
            - ((px - ex) * -Real.sin θ + (py - ey) * Real.cos θ) * 100.0)) / 100 := by
    norm_num
    linear_combination (py - ey) * hcs
  rw [hkey, abs_div]
  rw [abs_of_pos (by norm_num : (0 : ℝ) < 100)]
  rw [div_le_iff₀ (by norm_num : (0 : ℝ) < 100)]
  norm_num at hrot ⊢
  exact hrot

/-- C19. For every ego grid position `(ex, ey)`, every angle `theta` and every
raw object: with the ego position and heading set to `(ex, ey)` and `theta`, the
object built by `updateObjectsStack` and written by `send` is decoded by the
loop body of `indicate`, run with sender grid `(ex, ey)` and orientation
`theta`, to a world position that differs from the world position of the raw
object by at most 0.01 m in x and in y. -/
theorem frame_round_trip (env : Env ℝ) (app : CpmApplication ℝ) (stamp : Time) (i : Int)
    (obj : DynamicObject ℝ) (ex ey : Int) (theta : ℝ) :
    ∃ decoded : Object ℝ,
      indicate_object realLibm env ex ey theta
          (send_perceivedObject
            (updateObjectsStack_object realLibm env
              ((app.updateMGRS (ex : ℝ) (ey : ℝ)).updateHeading theta) stamp i obj))
        = Except.ok decoded ∧
      |decoded.position_x - obj.position.x| ≤ 0.01 ∧
      |decoded.position_y - obj.position.y| ≤ 0.01 := by
  refine ⟨_, rfl, ?_, ?_⟩
  · exact frame_round_trip_x (ex : ℝ) (ey : ℝ) obj.position.x obj.position.y theta
  · exact frame_round_trip_y (ex : ℝ) (ey : ℝ) obj.position.x obj.position.y theta

end v2x
